import Mathlib

/-!
Verification development for the attendance subsystem of the
SMART-CAMPUS-ENGAGEMENT backend.

The definitions below are a shallow embedding of the Python source:

* `app/models/attendance.py`      — enums and entity structures
* `app/services/attendance_service.py` — window check, geofence ops,
  profile-photo review, the mark-attendance pipeline, holiday bulk import
* `app/repositories/attendance_repository.py` — repository queries over
  in-memory stores (lists standing for database tables), the stats engine
* `app/routers/attendance.py`     — the `/attendance/mark` route

Database tables are modelled as Lean lists, `float` as `Rat`, calendar
dates (for the stats engine) as day ordinals `Nat` with `dateWeekday d =
(d + 3) % 7` (Monday = 0 … Sunday = 6, matching Python's
`date.weekday()`), and clock times as minutes since midnight.  The
external face-recognition capability and the trigonometric part of the
haversine formula are injected as parameters, mirroring the fact that
they are external capabilities for the service code.
-/

/-- `ProfilePhotoStatus` from `app/models/attendance.py`. -/
inductive ProfilePhotoStatus where
  | PENDING
  | APPROVED
  | REJECTED
deriving DecidableEq, Repr

/-- `AttendanceStatus` from `app/models/attendance.py`. -/
inductive AttendanceStatus where
  | PRESENT
  | ABSENT
  | PENDING
deriving DecidableEq, Repr

/-- `FailureReason` from `app/models/attendance.py`. -/
inductive FailureReason where
  | OUTSIDE_CAMPUS
  | GPS_DISABLED
  | LOW_GPS_ACCURACY
  | FACE_MISMATCH
  | MULTIPLE_FACES
  | NO_FACE_DETECTED
  | PROFILE_NOT_APPROVED
  | OUTSIDE_TIME_WINDOW
  | ALREADY_MARKED
  | IMAGE_QUALITY_POOR
  | FACE_OBSTRUCTED
deriving DecidableEq, Repr

/-- `StudentCategory` from `app/models/user.py`. -/
inductive StudentCategory where
  | HOSTELLER
  | DAY_SCHOLAR
deriving DecidableEq, Repr

/-- `ProfilePhoto` row (`app/models/attendance.py`). -/
structure ProfilePhoto where
  id : Nat
  student_id : Nat
  file_path : String
  filename : String
  face_encoding : Option String
  status : ProfilePhotoStatus
  rejection_reason : Option String
  reviewed_by : Option Nat
  reviewed_at : Option Nat
deriving DecidableEq, Repr

/-- `CampusGeofence` row (`app/models/attendance.py`). -/
structure CampusGeofence where
  id : Nat
  name : String
  description : Option String
  latitude : Rat
  longitude : Rat
  radius_meters : Rat
  accuracy_threshold : Rat
  is_active : Bool
  is_primary : Bool
  created_by : Option Nat
deriving DecidableEq, Repr

/-- `AttendanceWindow` row (`app/models/attendance.py`); `days_of_week`
is kept in parsed form (the service parses the JSON string on use). -/
structure AttendanceWindow where
  id : Nat
  name : String
  start_time : Nat
  end_time : Nat
  days_of_week : List Nat
  student_category : Option StudentCategory
  is_active : Bool
deriving DecidableEq, Repr

/-- `AttendanceRecord` row (`app/models/attendance.py`). -/
structure AttendanceRecord where
  id : Option Nat
  student_id : Nat
  attendance_date : Nat
  status : AttendanceStatus
  location_latitude : Option Rat
  location_longitude : Option Rat
  location_accuracy : Option Rat
  face_match_confidence : Option Rat
  marked_at : Option Nat
deriving DecidableEq, Repr

/-- `AttendanceAttempt` row (`app/models/attendance.py`). -/
structure AttendanceAttempt where
  student_id : Nat
  success : Bool
  failure_reason : Option FailureReason
  failure_details : Option String
  location_latitude : Rat
  location_longitude : Rat
  location_accuracy : Rat
  captured_image_path : Option String
  face_match_score : Option Rat
  geofence_id : Option Nat
deriving DecidableEq, Repr

/-- `Holiday` row (`app/models/attendance.py`), dates as day ordinals. -/
structure Holiday where
  id : Nat
  date : Nat
  name : String
  description : Option String
  holiday_type : String
  is_recurring : Bool
  is_active : Bool
  created_by : Option Nat
deriving DecidableEq, Repr

/-- `LocationData` schema (`app/schemas/attendance.py`). -/
structure LocationData where
  latitude : Rat
  longitude : Rat
  accuracy : Rat
deriving DecidableEq, Repr

/-- `AttendanceMarkResult` schema (`app/schemas/attendance.py`). -/
structure AttendanceMarkResult where
  success : Bool
  message : String
  attendance_status : Option AttendanceStatus := none
  failure_reason : Option FailureReason := none
  face_match_score : Option Rat := none
deriving DecidableEq, Repr

/-- `AttendancePreCheckOut` schema (`app/schemas/attendance.py`). -/
structure AttendancePreCheckOut where
  can_mark : Bool
  blockers : List String
  profile_approved : Bool
  within_time_window : Bool
  already_marked_today : Bool
deriving DecidableEq, Repr

/-- Python's `date.weekday()` on day-ordinal dates (day 0 is a Thursday,
as for the Unix epoch): Monday = 0 … Sunday = 6. -/
def dateWeekday (d : Nat) : Nat := (d + 3) % 7

/-- `AttendanceWindowRepository.get_active_windows`
(`app/repositories/attendance_repository.py`): active windows, and when a
category is passed, only windows whose `student_category` matches it or
is unset. -/
def get_active_windows (windows : List AttendanceWindow)
    (category : Option StudentCategory) : List AttendanceWindow :=
  let base := windows.filter (fun w => w.is_active)
  match category with
  | some c =>
      base.filter (fun w =>
        decide (w.student_category = some c) || decide (w.student_category = none))
  | none => base

/-- `AttendanceService._is_within_time_window`
(`app/services/attendance_service.py`): true when the current day is in
some window's `days_of_week` and the time lies inclusively between its
start and end. -/
def is_within_time_window (windows : List AttendanceWindow)
    (current_time current_day : Nat) : Bool :=
  windows.any (fun w =>
    decide (current_day ∈ w.days_of_week) &&
      (decide (w.start_time ≤ current_time) && decide (current_time ≤ w.end_time)))

/-- Type of the injected great-circle distance computation
(`AttendanceService._haversine_distance` evaluates trigonometric library
functions; its result is abstracted as a function of the two
coordinate pairs). -/
def HavFn : Type := Rat → Rat → Rat → Rat → Rat

/-- `AttendanceService._is_within_geofence`: `(is_within, distance)`
with `is_within` = distance from the geofence center is at most
`radius_meters`. -/
def is_within_geofence (hav : HavFn) (location : LocationData)
    (geofence : CampusGeofence) : Bool × Rat :=
  let distance := hav location.latitude location.longitude
    geofence.latitude geofence.longitude
  (decide (distance ≤ geofence.radius_meters), distance)

/-- `GeofenceRepository.get_primary_active_geofence`: the geofence with
`is_active` and `is_primary` both set. -/
def get_primary_active_geofence (store : List CampusGeofence) :
    Option CampusGeofence :=
  store.find? (fun g => g.is_active && g.is_primary)

/-- `GeofenceCreate` schema (`app/schemas/attendance.py`). -/
structure GeofenceCreate where
  name : String
  description : Option String
  latitude : Rat
  longitude : Rat
  radius_meters : Rat
  accuracy_threshold : Rat
  is_primary : Bool
deriving DecidableEq, Repr

/-- `GeofenceUpdate` schema (`app/schemas/attendance.py`); `none` models
a field absent from the update payload. -/
structure GeofenceUpdate where
  name : Option String := none
  description : Option String := none
  latitude : Option Rat := none
  longitude : Option Rat := none
  radius_meters : Option Rat := none
  accuracy_threshold : Option Rat := none
  is_active : Option Bool := none
  is_primary : Option Bool := none
deriving DecidableEq, Repr

/-- `AttendanceService.create_geofence`: builds the new geofence
(active by default); if it is primary, first unsets `is_primary` on the
current primary active geofence; then inserts it. -/
def create_geofence (store : List CampusGeofence) (data : GeofenceCreate)
    (admin_id new_id : Nat) : List CampusGeofence :=
  let geofence : CampusGeofence :=
    { id := new_id
      name := data.name
      description := data.description
      latitude := data.latitude
      longitude := data.longitude
      radius_meters := data.radius_meters
      accuracy_threshold := data.accuracy_threshold
      is_active := true
      is_primary := data.is_primary
      created_by := some admin_id }
  let store1 :=
    if data.is_primary then
      match get_primary_active_geofence store with
      | some existing_primary =>
          store.map (fun g =>
            if decide (g.id = existing_primary.id) then
              { g with is_primary := false }
            else g)
      | none => store
    else store
  store1 ++ [geofence]

/-- Field-wise application of a `GeofenceUpdate`
(`setattr` loop over `model_dump(exclude_unset=True)` in
`AttendanceService.update_geofence`). -/
def apply_geofence_update (g : CampusGeofence) (u : GeofenceUpdate) :
    CampusGeofence :=
  { g with
      name := u.name.getD g.name
      description := match u.description with
        | some d => some d
        | none => g.description
      latitude := u.latitude.getD g.latitude
      longitude := u.longitude.getD g.longitude
      radius_meters := u.radius_meters.getD g.radius_meters
      accuracy_threshold := u.accuracy_threshold.getD g.accuracy_threshold
      is_active := u.is_active.getD g.is_active
      is_primary := u.is_primary.getD g.is_primary }

/-- `AttendanceService.update_geofence`: looks the geofence up by id and
overwrites the supplied fields in place; no other row is touched. -/
def update_geofence (store : List CampusGeofence) (geofence_id : Nat)
    (data : GeofenceUpdate) : Except String (List CampusGeofence) :=
  match store.find? (fun g => decide (g.id = geofence_id)) with
  | none => .error "Geofence not found"
  | some _ =>
      .ok (store.map (fun g =>
        if decide (g.id = geofence_id) then apply_geofence_update g data else g))

/-- Number of geofences that are simultaneously primary and active; the
single-primary invariant is `primary_active_count store ≤ 1`. -/
def primary_active_count (store : List CampusGeofence) : Nat :=
  (store.filter (fun g => g.is_active && g.is_primary)).length

/-- The injected face-recognition capability
(`app/services/face_recognition_service.py` is an external ML
dependency; only its interface is modelled): `detect_faces` counts the
faces in a stored image, `verify_face` compares two stored images and
returns `(is_match, similarity_score, message)`. -/
structure FaceService where
  detect_faces : String → Nat
  verify_face : String → String → Bool × Rat × String

/-- `AttendanceService.MAX_DAILY_ATTEMPTS`. -/
def MAX_DAILY_ATTEMPTS : Nat := 5

/-- Storage path of the captured image
(`{UPLOAD_DIR}/attendance_captures/{student.id}_{timestamp}_{file.filename}`
in `AttendanceService.mark_attendance`, with the timestamp rendered from
`now`). -/
def capture_path (student_id now : Nat) (filename : String) : String :=
  "attendance_captures/" ++ toString student_id ++ "_" ++ toString now
    ++ "_" ++ filename

/-- `AttendanceService.mark_attendance`
(`app/services/attendance_service.py`, the core pipeline).  Inputs that
the service reads from the database or from injected capabilities are
parameters: the primary active geofence, the student's approved profile
photo, today's existing attendance record, the face service and the
distance computation.  The result is the structured
`AttendanceMarkResult`, the list of `AttendanceAttempt` rows written
during the call, and the upserted `AttendanceRecord` (`none` when no
record was written). -/
def mark_attendance (fs : FaceService) (hav : HavFn) (student_id : Nat)
    (location : LocationData) (image_filename : String)
    (geofence? : Option CampusGeofence) (approved_photo? : Option ProfilePhoto)
    (existing_record? : Option AttendanceRecord) (today now : Nat) :
    AttendanceMarkResult × List AttendanceAttempt × Option AttendanceRecord :=
  let attempt0 : AttendanceAttempt :=
    { student_id := student_id
      success := false
      failure_reason := none
      failure_details := none
      location_latitude := location.latitude
      location_longitude := location.longitude
      location_accuracy := location.accuracy
      captured_image_path := none
      face_match_score := none
      geofence_id := none }
  match geofence? with
  | none =>
      ({ success := false
         message := "Campus geofence not configured"
         failure_reason := some .OUTSIDE_CAMPUS },
       [{ attempt0 with
            success := false
            failure_reason := some .OUTSIDE_CAMPUS
            failure_details := some "Campus geofence not configured"
            geofence_id := none }],
       none)
  | some geofence =>
      let attempt1 := { attempt0 with geofence_id := some geofence.id }
      if location.accuracy > geofence.accuracy_threshold then
        ({ success := false
           message := "GPS accuracy too low. Please move to an open area."
           failure_reason := some .LOW_GPS_ACCURACY },
         [{ attempt1 with
              success := false
              failure_reason := some .LOW_GPS_ACCURACY
              failure_details := some ("GPS accuracy " ++ toString location.accuracy
                ++ "m exceeds threshold " ++ toString geofence.accuracy_threshold ++ "m") }],
         none)
      else
        let wd := is_within_geofence hav location geofence
        if wd.1 = false then
          ({ success := false
             message := "You are outside the campus boundary"
             failure_reason := some .OUTSIDE_CAMPUS },
           [{ attempt1 with
                success := false
                failure_reason := some .OUTSIDE_CAMPUS
                failure_details := some ("Distance from campus center: "
                  ++ toString wd.2 ++ "m (radius: "
                  ++ toString geofence.radius_meters ++ "m)") }],
           none)
        else
          let path := capture_path student_id now image_filename
          let attempt2 := { attempt1 with captured_image_path := some path }
          let face_count := fs.detect_faces path
          if face_count = 0 then
            ({ success := false
               message := "No face detected. Please ensure your face is clearly visible."
               failure_reason := some .NO_FACE_DETECTED },
             [{ attempt2 with
                  success := false
                  failure_reason := some .NO_FACE_DETECTED
                  failure_details := some "No face detected in captured image" }],
             none)
          else if face_count > 1 then
            ({ success := false
               message := "Multiple faces detected. Only you should be in the frame."
               failure_reason := some .MULTIPLE_FACES },
             [{ attempt2 with
                  success := false
                  failure_reason := some .MULTIPLE_FACES
                  failure_details := some (toString face_count ++ " faces detected") }],
             none)
          else
            match approved_photo? with
            | none =>
                ({ success := false
                   message := "Profile photo not approved"
                   failure_reason := some .PROFILE_NOT_APPROVED },
                 [{ attempt2 with
                      success := false
                      failure_reason := some .PROFILE_NOT_APPROVED }],
                 none)
            | some approved_photo =>
                let v := fs.verify_face approved_photo.file_path path
                let similarity_score := v.2.1
                let attempt3 := { attempt2 with face_match_score := some similarity_score }
                if v.1 = false then
                  ({ success := false
                     message := "Face verification failed. Please try again."
                     failure_reason := some .FACE_MISMATCH
                     face_match_score := some similarity_score },
                   [{ attempt3 with
                        success := false
                        failure_reason := some .FACE_MISMATCH
                        failure_details := some ("Face match score: "
                          ++ toString similarity_score) }],
                   none)
                else
                  let attempt4 := { attempt3 with success := true }
                  let record :=
                    match existing_record? with
                    | some existing_record =>
                        { existing_record with
                            status := AttendanceStatus.PRESENT
                            marked_at := some now
                            location_latitude := some location.latitude
                            location_longitude := some location.longitude
                            location_accuracy := some location.accuracy
                            face_match_confidence := some similarity_score }
                    | none =>
                        { id := none
                          student_id := student_id
                          attendance_date := today
                          status := AttendanceStatus.PRESENT
                          marked_at := some now
                          location_latitude := some location.latitude
                          location_longitude := some location.longitude
                          location_accuracy := some location.accuracy
                          face_match_confidence := some similarity_score }
                  ({ success := true
                     message := "Attendance marked successfully!"
                     attendance_status := some AttendanceStatus.PRESENT
                     face_match_score := some similarity_score },
                   [attempt4],
                   some record)

/-- Everything `AttendanceService.check_attendance_prerequisites` reads
from the database and the clock during one `/attendance/mark` request
(one transactional snapshot, shared with the pipeline). -/
structure MarkCtx where
  today_weekday : Nat
  holiday_today : Option Holiday
  approved_photo : Option ProfilePhoto
  windows : List AttendanceWindow
  current_time : Nat
  student_category : Option StudentCategory
  existing_record : Option AttendanceRecord
  attempt_count : Nat
  geofence : Option CampusGeofence

/-- `AttendanceService.check_attendance_prerequisites`: collects
blockers in source order; `can_mark` iff there are none. -/
def check_attendance_prerequisites (ctx : MarkCtx) : AttendancePreCheckOut :=
  let blockers0 : List String := []
  let is_sunday := decide (ctx.today_weekday = 6)
  let blockers1 := if is_sunday then
      blockers0 ++ ["Attendance is not required on Sundays"] else blockers0
  let blockers2 := match ctx.holiday_today with
    | some holiday => blockers1 ++ ["Today is a holiday: " ++ holiday.name]
    | none => blockers1
  let profile_approved := ctx.approved_photo.isSome
  let blockers3 := if profile_approved then blockers2
    else blockers2 ++ ["Profile photo not approved"]
  let active_windows := get_active_windows ctx.windows ctx.student_category
  let within_time_window :=
    is_within_time_window active_windows ctx.current_time ctx.today_weekday
  let blockers4 := if within_time_window then blockers3
    else blockers3 ++ ["Outside attendance time window"]
  let already_marked_today :=
    match ctx.existing_record with
    | some existing_record => decide (existing_record.status = AttendanceStatus.PRESENT)
    | none => false
  let blockers5 := if already_marked_today then
      blockers4 ++ ["Attendance already marked today"] else blockers4
  let blockers6 := if ctx.attempt_count ≥ MAX_DAILY_ATTEMPTS then
      blockers5 ++ ["Maximum attempts (" ++ toString MAX_DAILY_ATTEMPTS
        ++ ") reached for today"]
    else blockers5
  let blockers7 := match ctx.geofence with
    | some _ => blockers6
    | none => blockers6 ++ ["Campus geofence not configured"]
  { can_mark := decide (blockers7.length = 0)
    blockers := blockers7
    profile_approved := profile_approved
    within_time_window := within_time_window
    already_marked_today := already_marked_today }

/-- An HTTP error response raised by the router. -/
structure HTTPError where
  status_code : Nat
  detail : String
deriving DecidableEq, Repr

/-- The `/attendance/mark` route (`app/routers/attendance.py`): runs the
pre-check first and raises HTTP 400 with the joined blockers when it
fails; only otherwise does the pipeline run. -/
def mark_attendance_route (fs : FaceService) (hav : HavFn) (student_id : Nat)
    (location : LocationData) (image_filename : String) (ctx : MarkCtx)
    (today now : Nat) :
    Except HTTPError
      (AttendanceMarkResult × List AttendanceAttempt × Option AttendanceRecord) :=
  let pre_check := check_attendance_prerequisites ctx
  if pre_check.can_mark = false then
    .error { status_code := 400
             detail := "Cannot mark attendance: "
               ++ String.intercalate ", " pre_check.blockers }
  else
    .ok (mark_attendance fs hav student_id location image_filename
      ctx.geofence ctx.approved_photo ctx.existing_record today now)

/-- `ProfilePhotoApproval` schema (`app/schemas/attendance.py`). -/
structure ProfilePhotoApproval where
  approved : Bool
  rejection_reason : Option String
deriving DecidableEq, Repr

/-- `ProfilePhotoRepository.get_approved_photo_for_student`: the photo of
the student with status APPROVED. -/
def get_approved_photo_for_student (store : List ProfilePhoto) (student_id : Nat) :
    Option ProfilePhoto :=
  store.find? (fun p =>
    decide (p.student_id = student_id) &&
      decide (p.status = ProfilePhotoStatus.APPROVED))

/-- `AttendanceService.upload_profile_photo` after file persistence: the
face-validation verdict and the extracted encoding come from the
injected face service; on success a PENDING `ProfilePhoto` row is
created. -/
def upload_profile_photo (store : List ProfilePhoto) (student_id new_id : Nat)
    (file_path safe_filename : String) (validate_ok : Bool)
    (encoding : Option String) :
    Except String (List ProfilePhoto × ProfilePhoto) :=
  if validate_ok = false then .error "Invalid profile photo"
  else
    match encoding with
    | none => .error "Could not extract face encoding from image"
    | some enc =>
        let photo : ProfilePhoto :=
          { id := new_id
            student_id := student_id
            file_path := file_path
            filename := safe_filename
            face_encoding := some enc
            status := ProfilePhotoStatus.PENDING
            rejection_reason := none
            reviewed_by := none
            reviewed_at := none }
        .ok (store ++ [photo], photo)

/-- `AttendanceService.review_profile_photo`: only PENDING photos can be
reviewed; on approval, a different currently APPROVED photo of the same
student is first demoted to REJECTED with reason
"Replaced by new approved photo"; on rejection the supplied reason (or a
default) is stored. -/
def review_profile_photo (store : List ProfilePhoto) (photo_id reviewer_id : Nat)
    (approval : ProfilePhotoApproval) (now : Nat) :
    Except String (List ProfilePhoto) :=
  match store.find? (fun p => decide (p.id = photo_id)) with
  | none => .error "Profile photo not found"
  | some photo =>
      if decide (photo.status ≠ ProfilePhotoStatus.PENDING) then
        .error "Photo has already been reviewed"
      else
        let store1 :=
          if approval.approved then
            match get_approved_photo_for_student store photo.student_id with
            | some existing_approved =>
                if decide (existing_approved.id ≠ photo.id) then
                  store.map (fun p =>
                    if decide (p.id = existing_approved.id) then
                      { p with
                          status := ProfilePhotoStatus.REJECTED
                          rejection_reason := some "Replaced by new approved photo" }
                    else p)
                else store
            | none => store
          else store
        .ok (store1.map (fun p =>
          if decide (p.id = photo.id) then
            if approval.approved then
              { p with
                  status := ProfilePhotoStatus.APPROVED
                  reviewed_by := some reviewer_id
                  reviewed_at := some now }
            else
              { p with
                  status := ProfilePhotoStatus.REJECTED
                  rejection_reason :=
                    some (approval.rejection_reason.getD "Photo rejected by admin")
                  reviewed_by := some reviewer_id
                  reviewed_at := some now }
          else p))

/-- Number of APPROVED profile photos a student has; the single-approved
invariant is `approved_count store sid ≤ 1` for every student. -/
def approved_count (store : List ProfilePhoto) (student_id : Nat) : Nat :=
  (store.filter (fun p =>
    decide (p.student_id = student_id) &&
      decide (p.status = ProfilePhotoStatus.APPROVED))).length

/-- `HolidayRepository.get_by_date`: the active holiday on a date. -/
def get_by_date (store : List Holiday) (target_date : Nat) : Option Holiday :=
  store.find? (fun h => decide (h.date = target_date) && h.is_active)

/-- `HolidayRepository.get_holidays_in_range`: active holidays whose
date lies in the inclusive range. -/
def get_holidays_in_range (store : List Holiday) (start_date end_date : Nat) :
    List Holiday :=
  store.filter (fun h =>
    decide (start_date ≤ h.date) && (decide (h.date ≤ end_date) && h.is_active))

/-- `HolidayRepository.get_holiday_dates_in_range`: the dates of those
holidays (standing for the Python set). -/
def get_holiday_dates_in_range (store : List Holiday) (start_date end_date : Nat) :
    List Nat :=
  (get_holidays_in_range store start_date end_date).map (fun h => h.date)

/-- `HolidayRepository.get_all_active`. -/
def get_all_active (store : List Holiday) : List Holiday :=
  store.filter (fun h => h.is_active)

/-- `HolidayRepository.delete`: soft delete — the row is kept and only
`is_active` is cleared; returns whether the id existed. -/
def HolidayRepository.delete (store : List Holiday) (holiday_id : Nat) :
    Bool × List Holiday :=
  match store.find? (fun h => decide (h.id = holiday_id)) with
  | none => (false, store)
  | some _ =>
      (true, store.map (fun h =>
        if decide (h.id = holiday_id) then { h with is_active := false } else h))

/-- The working-day counting loop of
`DetailedAttendanceRepository.get_student_attendance_stats`: walk from
`current` upward for `fuel` days, counting days that are neither Sunday
nor holidays. -/
def countWorkingDaysAux (holiday_dates : List Nat) : Nat → Nat → Nat
  | _, 0 => 0
  | current, fuel + 1 =>
      (if dateWeekday current ≠ 6 ∧ current ∉ holiday_dates then 1 else 0) +
        countWorkingDaysAux holiday_dates (current + 1) fuel

/-- Working days in `[start_date, end_date]` (the `while current <=
end_date` loop). -/
def countWorkingDays (start_date end_date : Nat) (holiday_dates : List Nat) : Nat :=
  countWorkingDaysAux holiday_dates start_date (end_date + 1 - start_date)

/-- One element of the synthesized history list: either a real
`AttendanceRecord` row or the virtual ABSENT dictionary (`id = null`)
built for an unmarked past working day. -/
inductive HistEntry where
  | real (r : AttendanceRecord)
  | virtual (student_id : Nat) (attendance_date : Nat)
deriving DecidableEq, Repr

/-- The date attached to a history entry. -/
def HistEntry.entryDate : HistEntry → Nat
  | .real r => r.attendance_date
  | .virtual _ d => d

/-- The history-synthesis loop of `get_student_attendance_stats`: walk
from `current` downward for `fuel` days; on each working day emit the
real record if one exists, otherwise a virtual ABSENT entry when the
date is not in the future. -/
def synthHistoryAux (student_id today : Nat) (records : List AttendanceRecord)
    (holiday_dates : List Nat) : Nat → Nat → List HistEntry
  | _, 0 => []
  | current, fuel + 1 =>
      (if dateWeekday current ≠ 6 ∧ current ∉ holiday_dates then
        match records.find? (fun r => decide (r.attendance_date = current)) with
        | some r => [HistEntry.real r]
        | none =>
            if current ≤ today then [HistEntry.virtual student_id current] else []
      else []) ++
        synthHistoryAux student_id today records holiday_dates (current - 1) fuel

/-- Full history for `[start_date, end_date]`, iterated from the end of
the range downward (the `while current >= start_date` loop). -/
def synthHistory (student_id today : Nat) (records : List AttendanceRecord)
    (holiday_dates : List Nat) (start_date end_date : Nat) : List HistEntry :=
  synthHistoryAux student_id today records holiday_dates end_date
    (end_date + 1 - start_date)

/-- Round-half-to-even on rationals (the behaviour of Python's
`round(x)` on the exact value). -/
def roundHalfEven (x : Rat) : Int :=
  let f := ⌊x⌋
  let frac := x - f
  if frac < 1 / 2 then f
  else if frac > 1 / 2 then f + 1
  else if f % 2 = 0 then f else f + 1

/-- Python's `round(x, 2)` on the exact value. -/
def pyRound2 (x : Rat) : Rat := (roundHalfEven (x * 100) : Rat) / 100

/-- The dictionary returned by
`DetailedAttendanceRepository.get_student_attendance_stats`. -/
structure StatsOut where
  start_date : Nat
  end_date : Nat
  total_working_days : Nat
  holidays_count : Nat
  present_days : Nat
  absent_days : Nat
  attendance_percentage : Rat
  records : List HistEntry
  holidays : List Holiday
deriving Repr

/-- `DetailedAttendanceRepository.get_student_attendance_stats` for an
explicit date range (`records` is the query result for the student in
`[start_date, end_date]`; `holidayStore` is the holidays table). -/
def get_student_attendance_stats (student_id : Nat)
    (start_date end_date today : Nat) (records : List AttendanceRecord)
    (holidayStore : List Holiday) : StatsOut :=
  let present_count :=
    records.countP (fun r => decide (r.status = AttendanceStatus.PRESENT))
  let holiday_dates := get_holiday_dates_in_range holidayStore start_date end_date
  let total_working_days := countWorkingDays start_date end_date holiday_dates
  let absent0 : Int := (total_working_days : Int) - (present_count : Int)
  let absent_count : Nat := (if absent0 < 0 then 0 else absent0).toNat
  let percentage : Rat :=
    if total_working_days > 0 then
      (present_count : Rat) / (total_working_days : Rat) * 100
    else 0
  let holidays := get_holidays_in_range holidayStore start_date end_date
  let full_history :=
    synthHistory student_id today records holiday_dates start_date end_date
  { start_date := start_date
    end_date := end_date
    total_working_days := total_working_days
    holidays_count := holiday_dates.length
    present_days := present_count
    absent_days := absent_count
    attendance_percentage := pyRound2 percentage
    records := full_history
    holidays := holidays }

/-- Python's `'sub' in s` substring test over character lists (defined
from scratch so that it evaluates inside the kernel). -/
def starts_with : List Char → List Char → Bool
  | _, [] => true
  | [], _ :: _ => false
  | a :: s, b :: pat => decide (a = b) && starts_with s pat

/-- Substring occurrence (`'sub' in s` in Python). -/
def contains_sub : List Char → List Char → Bool
  | s, pat =>
      if starts_with s pat then true
      else match s with
        | [] => false
        | _ :: rest => contains_sub rest pat

/-- Python's `str.strip()` over character lists. -/
def py_strip (l : List Char) : List Char :=
  (((l.dropWhile Char.isWhitespace).reverse).dropWhile Char.isWhitespace).reverse

/-- Python's `str.lower()` over character lists. -/
def py_lower (l : List Char) : List Char := l.map Char.toLower

/-- Python's `split('\n')` over character lists. -/
def split_newline : List Char → List (List Char)
  | [] => [[]]
  | '\n' :: rest => [] :: split_newline rest
  | c :: rest =>
      match split_newline rest with
      | [] => [[c]]
      | h :: t => (c :: h) :: t

/-- Tokenizer for `re.split(r'\t+|,|  +', line)` in
`AttendanceService.bulk_create_holidays`: a run of tabs, a comma, or a
run of two or more spaces separates tokens; a single space stays inside
its token.  The fuel argument (instantiated with the line length, an
upper bound on the steps) keeps the recursion structural. -/
def split_parts_aux : Nat → List Char → List Char → List (List Char)
  | _, [], acc => [acc.reverse]
  | 0, _ :: _, acc => [acc.reverse]
  | fuel + 1, '\t' :: rest, acc =>
      acc.reverse :: split_parts_aux fuel (rest.dropWhile (fun c => c = '\t')) []
  | fuel + 1, ',' :: rest, acc => acc.reverse :: split_parts_aux fuel rest []
  | fuel + 1, ' ' :: ' ' :: rest, acc =>
      acc.reverse :: split_parts_aux fuel (rest.dropWhile (fun c => c = ' ')) []
  | fuel + 1, c :: rest, acc => split_parts_aux fuel rest (c :: acc)

/-- `re.split` applied to a whole line. -/
def split_parts (line : List Char) : List (List Char) :=
  split_parts_aux line.length line []

/-- `re.match(r'([a-zA-Z]+)\s*(\d+)', date_str)`: a leading run of
letters, optional whitespace, then a run of digits; yields the letter
group and the digit group's value. -/
def parse_month_day (s : List Char) : Option (List Char × Nat) :=
  let letters := s.takeWhile Char.isAlpha
  if letters.isEmpty then none
  else
    let rest := (s.dropWhile Char.isAlpha).dropWhile Char.isWhitespace
    let digits := rest.takeWhile Char.isDigit
    if digits.isEmpty then none
    else
      some (letters, digits.foldl (fun n c => n * 10 + (c.toNat - 48)) 0)

/-- The `month_map` dictionary of
`AttendanceService.bulk_create_holidays` (keys already lowered). -/
def month_map (m : List Char) : Option Nat :=
  if m = "jan".data ∨ m = "january".data then some 1
  else if m = "feb".data ∨ m = "february".data then some 2
  else if m = "mar".data ∨ m = "march".data then some 3
  else if m = "apr".data ∨ m = "april".data then some 4
  else if m = "may".data then some 5
  else if m = "jun".data ∨ m = "june".data then some 6
  else if m = "jul".data ∨ m = "july".data then some 7
  else if m = "aug".data ∨ m = "august".data then some 8
  else if m = "sep".data ∨ m = "sept".data ∨ m = "september".data then some 9
  else if m = "oct".data ∨ m = "october".data then some 10
  else if m = "nov".data ∨ m = "november".data then some 11
  else if m = "dec".data ∨ m = "december".data then some 12
  else none

/-- Gregorian leap-year rule (Python's `calendar`/`datetime`). -/
def is_leap_year (y : Nat) : Bool :=
  decide (y % 4 = 0) && (decide (y % 100 ≠ 0) || decide (y % 400 = 0))

/-- Days in a month (validity domain of Python's `date(year, month,
day)`). -/
def days_in_month (y m : Nat) : Nat :=
  if m = 2 then (if is_leap_year y then 29 else 28)
  else if m = 4 ∨ m = 6 ∨ m = 9 ∨ m = 11 then 30
  else 31

/-- A calendar date as constructed by `date(year, month, day)` during
bulk import. -/
structure CalDate where
  year : Nat
  month : Nat
  day : Nat
deriving DecidableEq, Repr

/-- Zero-padded two-digit rendering. -/
def pad2 (n : Nat) : String := if n < 10 then "0" ++ toString n else toString n

/-- Python's `str(date)`, ISO format. -/
def CalDate.iso (d : CalDate) : String :=
  toString d.year ++ "-" ++ pad2 d.month ++ "-" ++ pad2 d.day

/-- The per-line loop of `AttendanceService.bulk_create_holidays` over
the numbered lines.  `existing` carries the `(date, is_active)` pairs of
the holidays table — `get_by_date` sees only active rows, while the
unique date constraint (hit inside the `try`/`except` around
`holiday_repo.create`) sees all rows; rows created earlier in the batch
are appended as the loop goes.  Returns `(created, errors)`. -/
def bulk_process (year : Nat) :
    List (Nat × List Char) → List (CalDate × Bool) →
      List (CalDate × String) × List String
  | [], _ => ([], [])
  | (line_num, raw_line) :: rest, existing =>
      let line := py_strip raw_line
      if line = [] then bulk_process year rest existing
      else if contains_sub (py_lower line) "date".data &&
          contains_sub (py_lower line) "holiday".data then
        bulk_process year rest existing
      else
        let parts := ((split_parts line).map py_strip).filter
          (fun p => decide (p ≠ []))
        if parts.length < 2 then
          let res := bulk_process year rest existing
          (res.1, ("Line " ++ toString line_num ++ ": Invalid format - "
            ++ String.mk line) :: res.2)
        else
          let date_str := parts.headD []
          let holiday_name := String.mk (parts.getLastD [])
          match parse_month_day date_str with
          | none =>
              let res := bulk_process year rest existing
              (res.1, ("Line " ++ toString line_num ++ ": Could not parse date - "
                ++ String.mk date_str) :: res.2)
          | some md =>
              let month_str := py_lower md.1
              let day := md.2
              match month_map month_str with
              | none =>
                  let res := bulk_process year rest existing
                  (res.1, ("Line " ++ toString line_num ++ ": Unknown month - "
                    ++ String.mk month_str) :: res.2)
              | some month =>
                  if day = 0 ∨ day > days_in_month year month then
                    let res := bulk_process year rest existing
                    (res.1, ("Line " ++ toString line_num
                      ++ ": Invalid date - day is out of range for month") :: res.2)
                  else
                    let holiday_date : CalDate := ⟨year, month, day⟩
                    if existing.any (fun p => decide (p.1 = holiday_date) && p.2) then
                      let res := bulk_process year rest existing
                      (res.1, ("Line " ++ toString line_num
                        ++ ": Holiday already exists for " ++ holiday_date.iso)
                        :: res.2)
                    else if existing.any (fun p => decide (p.1 = holiday_date)) then
                      let res := bulk_process year rest existing
                      (res.1, ("Line " ++ toString line_num
                        ++ ": Failed to create - duplicate date") :: res.2)
                    else
                      let res := bulk_process year rest
                        (existing ++ [(holiday_date, true)])
                      ((holiday_date, holiday_name) :: res.1, res.2)

/-- The dictionary returned by `bulk_create_holidays`. -/
structure BulkHolidayResult where
  created : List (CalDate × String)
  created_count : Nat
  errors : List String
  error_count : Nat
deriving DecidableEq, Repr

/-- 1-based line numbering (`enumerate(lines, 1)`). -/
def number_from (n : Nat) : List (List Char) → List (Nat × List Char)
  | [] => []
  | l :: rest => (n, l) :: number_from (n + 1) rest

/-- `AttendanceService.bulk_create_holidays`: strip the text, split into
lines, process each with its 1-based line number. -/
def bulk_create_holidays (existing : List (CalDate × Bool)) (text : String)
    (year : Nat) : BulkHolidayResult :=
  let lines := split_newline (py_strip text.data)
  let res := bulk_process year (number_from 1 lines) existing
  { created := res.1
    created_count := res.1.length
    errors := res.2
    error_count := res.2.length }

section ListInfrastructure

variable {α : Type _}

/-- Counting a key equality is counting the key in the mapped list. -/
theorem countP_key (l : List α) (k : α → Nat) (c : Nat) :
    l.countP (fun y => decide (k y = c)) = (l.map k).count c := by
  induction l with
  | nil => rfl
  | cons a l ih =>
      simp only [List.countP_cons, List.map_cons, List.count_cons, ih]
      by_cases h : k a = c
      · simp [h]
      · simp [h, Ne.symm h]

/-- Under distinct keys, exactly one list element carries a member's
key. -/
theorem countP_key_eq_one (l : List α) (k : α → Nat) (x : α)
    (hnd : (l.map k).Nodup) (hx : x ∈ l) :
    l.countP (fun y => decide (k y = k x)) = 1 := by
  rw [countP_key]
  exact List.count_eq_one_of_mem hnd (List.mem_map_of_mem k hx)

/-- A by-`q` rewrite is the identity when nothing satisfies `q`. -/
theorem map_update_no_match (l : List α) (q : α → Bool) (f : α → α)
    (h : ∀ y ∈ l, ¬ q y = true) :
    l.map (fun y => if q y then f y else y) = l := by
  induction l with
  | nil => rfl
  | cons a l ih =>
      have ha : q a = false := by simpa using h a (by simp)
      simp only [List.map_cons, ha, Bool.false_eq_true, if_false]
      rw [ih (fun y hy => h y (by simp [hy]))]

/-- Effect on an arbitrary count of rewriting the unique element that
satisfies `q` (the shape of every by-id, single-row update in the
repositories). -/
theorem countP_map_single_update (l : List α) (p q : α → Bool) (f : α → α)
    (x : α) (hq : l.countP q = 1) (hx : x ∈ l) (hqx : q x = true) :
    (l.map (fun y => if q y then f y else y)).countP p +
      (if p x = true then 1 else 0) =
    l.countP p + (if p (f x) = true then 1 else 0) := by
  induction l with
  | nil => cases hx
  | cons a l ih =>
      simp only [List.countP_cons] at hq
      by_cases hqa : q a = true
      · simp only [hqa, if_true] at hq
        have hql : l.countP q = 0 := by omega
        have hax : x = a := by
          rcases List.mem_cons.mp hx with h | h
          · exact h
          · exfalso
            have : 0 < l.countP q := List.countP_pos_iff.mpr ⟨x, h, hqx⟩
            omega
        have hmap : l.map (fun y => if q y then f y else y) = l := by
          apply map_update_no_match
          intro y hy hqy
          have : 0 < l.countP q := List.countP_pos_iff.mpr ⟨y, hy, hqy⟩
          omega
        subst hax
        simp only [List.map_cons, hqa, if_true, hmap, List.countP_cons]
        omega
      · have hqa' : q a = false := by simpa using hqa
        simp only [hqa', Bool.false_eq_true, if_false, Nat.add_zero] at hq
        have hxl : x ∈ l := by
          rcases List.mem_cons.mp hx with h | h
          · exact absurd (h ▸ hqx) hqa
          · exact h
        have hrec := ih (by omega) hxl
        simp only [List.map_cons, hqa', Bool.false_eq_true, if_false,
          List.countP_cons]
        omega

end ListInfrastructure

/-- C8: for every list of windows, current time, weekday and student
category, the time-window check (active-window query composed with
`_is_within_time_window`) returns true iff some active window has the
weekday in its `days_of_week`, has `student_category` unset or equal to
the student's category, and brackets the time inclusively; in
particular a 09:00–09:30 window on days 0–5 is open Wednesday 09:15,
closed Wednesday 09:31, and closed Sunday 09:15. -/
theorem time_window_check_correct (windows : List AttendanceWindow)
    (current_time current_day : Nat) (category : StudentCategory) :
    (is_within_time_window (get_active_windows windows (some category))
        current_time current_day = true ↔
      ∃ w ∈ windows, w.is_active = true ∧ current_day ∈ w.days_of_week ∧
        (w.student_category = none ∨ w.student_category = some category) ∧
        w.start_time ≤ current_time ∧ current_time ≤ w.end_time) ∧
    is_within_time_window (get_active_windows
      [⟨1, "Morning", 540, 570, [0, 1, 2, 3, 4, 5], none, true⟩]
      (some category)) 555 2 = true ∧
    is_within_time_window (get_active_windows
      [⟨1, "Morning", 540, 570, [0, 1, 2, 3, 4, 5], none, true⟩]
      (some category)) 571 2 = false ∧
    is_within_time_window (get_active_windows
      [⟨1, "Morning", 540, 570, [0, 1, 2, 3, 4, 5], none, true⟩]
      (some category)) 555 6 = false := by
  refine ⟨?_, ?_, ?_, ?_⟩
  · simp only [is_within_time_window, get_active_windows, List.any_eq_true,
      List.mem_filter, Bool.and_eq_true, Bool.or_eq_true, decide_eq_true_eq]
    constructor
    · rintro ⟨w, ⟨⟨hw, hact⟩, hcat⟩, hday, hs, he⟩
      exact ⟨w, hw, hact, hday, hcat.symm.imp id id, hs, he⟩
    · rintro ⟨w, hw, hact, hday, hcat, hs, he⟩
      exact ⟨w, ⟨⟨hw, hact⟩, hcat.symm.imp id id⟩, hday, hs, he⟩
  · simp [is_within_time_window, get_active_windows]
  · simp [is_within_time_window, get_active_windows]
  · simp [is_within_time_window, get_active_windows]

/-- Evaluation of `time_window_check_correct` at a concrete window
configuration. -/
theorem time_window_check_correct_witness :
    is_within_time_window (get_active_windows
      [⟨1, "Morning", 540, 570, [0, 1, 2, 3, 4, 5], none, true⟩]
      (some StudentCategory.HOSTELLER)) 555 2 = true :=
  (time_window_check_correct
    [⟨1, "Morning", 540, 570, [0, 1, 2, 3, 4, 5], none, true⟩]
    555 2 StudentCategory.HOSTELLER).2.1


/-- C9: holiday bulk import works line by line and never aborts the
batch: the outcome of the first line (at most one created entry or one
error carrying that line's number) is prepended to the outcome of
processing the remaining lines; and on the two-line text
`"Jan 1\tWednesday\tNew Year\nFeb 30\tFriday\tBad"` with year 2025 it
creates exactly the holiday 2025-01-01 "New Year" and reports exactly
one error for line 2's invalid date. -/
theorem bulk_import_line_by_line :
    (∀ (year : Nat) (existing : List (CalDate × Bool)) (line_num : Nat)
        (raw_line : List Char) (rest : List (Nat × List Char)),
      ∃ (created1 : List (CalDate × String)) (errors1 : List String)
          (existing1 : List (CalDate × Bool)),
        bulk_process year ((line_num, raw_line) :: rest) existing =
          (created1 ++ (bulk_process year rest existing1).1,
           errors1 ++ (bulk_process year rest existing1).2) ∧
        errors1.length ≤ 1 ∧
        ∀ e ∈ errors1, ∃ t, e = ("Line " ++ toString line_num) ++ t) ∧
    bulk_create_holidays [] "Jan 1\tWednesday\tNew Year\nFeb 30\tFriday\tBad" 2025 =
      { created := [(⟨2025, 1, 1⟩, "New Year")]
        created_count := 1
        errors := ["Line 2: Invalid date - day is out of range for month"]
        error_count := 1 } := by
  constructor
  · intro year existing line_num raw_line rest
    by_cases h1 : py_strip raw_line = []
    · refine ⟨[], [], existing, ?_, by simp, by simp⟩
      rw [bulk_process]
      simp only []
      rw [if_pos h1]
      rfl
    · by_cases h2 : (contains_sub (py_lower (py_strip raw_line)) "date".data &&
        contains_sub (py_lower (py_strip raw_line)) "holiday".data) = true
      · refine ⟨[], [], existing, ?_, by simp, by simp⟩
        rw [bulk_process]
        simp only []
        rw [if_neg h1, if_pos h2]
        rfl
      · by_cases h3 : (((split_parts (py_strip raw_line)).map py_strip).filter
            (fun p => decide (p ≠ []))).length < 2
        · refine ⟨[], ["Line " ++ toString line_num ++ ": Invalid format - "
            ++ String.mk (py_strip raw_line)], existing, ?_, by simp, ?_⟩
          · rw [bulk_process]
            simp only []
            rw [if_neg h1, if_neg h2, if_pos h3]
            rfl
          · intro e he
            simp only [List.mem_singleton] at he
            subst he
            exact ⟨_, String.append_assoc _ _ _⟩
        · rcases h4 : parse_month_day ((((split_parts (py_strip raw_line)).map
              py_strip).filter (fun p => decide (p ≠ []))).headD []) with _ | md
          · refine ⟨[], ["Line " ++ toString line_num ++ ": Could not parse date - "
              ++ String.mk ((((split_parts (py_strip raw_line)).map py_strip).filter
                (fun p => decide (p ≠ []))).headD [])], existing, ?_, by simp, ?_⟩
            · rw [bulk_process]
              simp only []
              rw [if_neg h1, if_neg h2, if_neg h3, h4]
              rfl
            · intro e he
              simp only [List.mem_singleton] at he
              subst he
              exact ⟨_, String.append_assoc _ _ _⟩
          · rcases h5 : month_map (py_lower md.1) with _ | month
            · refine ⟨[], ["Line " ++ toString line_num ++ ": Unknown month - "
                ++ String.mk (py_lower md.1)], existing, ?_, by simp, ?_⟩
              · rw [bulk_process]
                simp only []
                rw [if_neg h1, if_neg h2, if_neg h3, h4]
                simp only []
                rw [h5]
                rfl
              · intro e he
                simp only [List.mem_singleton] at he
                subst he
                exact ⟨_, String.append_assoc _ _ _⟩
            · by_cases h6 : md.2 = 0 ∨ md.2 > days_in_month year month
              · refine ⟨[], ["Line " ++ toString line_num
                  ++ ": Invalid date - day is out of range for month"], existing,
                  ?_, by simp, ?_⟩
                · rw [bulk_process]
                  simp only []
                  rw [if_neg h1, if_neg h2, if_neg h3, h4]
                  simp only []
                  rw [h5]
                  simp only []
                  rw [if_pos h6]
                  rfl
                · intro e he
                  simp only [List.mem_singleton] at he
                  subst he
                  exact ⟨_, rfl⟩
              · by_cases h7 : (existing.any (fun p =>
                    decide (p.1 = (⟨year, month, md.2⟩ : CalDate)) && p.2)) = true
                · refine ⟨[], ["Line " ++ toString line_num
                    ++ ": Holiday already exists for "
                    ++ (⟨year, month, md.2⟩ : CalDate).iso], existing,
                    ?_, by simp, ?_⟩
                  · rw [bulk_process]
                    simp only []
                    rw [if_neg h1, if_neg h2, if_neg h3, h4]
                    simp only []
                    rw [h5]
                    simp only []
                    rw [if_neg h6, if_pos h7]
                    rfl
                  · intro e he
                    simp only [List.mem_singleton] at he
                    subst he
                    exact ⟨_, String.append_assoc _ _ _⟩
                · by_cases h8 : (existing.any (fun p =>
                      decide (p.1 = (⟨year, month, md.2⟩ : CalDate)))) = true
                  · refine ⟨[], ["Line " ++ toString line_num
                      ++ ": Failed to create - duplicate date"], existing,
                      ?_, by simp, ?_⟩
                    · rw [bulk_process]
                      simp only []
                      rw [if_neg h1, if_neg h2, if_neg h3, h4]
                      simp only []
                      rw [h5]
                      simp only []
                      rw [if_neg h6, if_neg h7, if_pos h8]
                      rfl
                    · intro e he
                      simp only [List.mem_singleton] at he
                      subst he
                      exact ⟨_, rfl⟩
                  · refine ⟨[((⟨year, month, md.2⟩ : CalDate),
                      String.mk ((((split_parts (py_strip raw_line)).map
                        py_strip).filter (fun p => decide (p ≠ []))).getLastD []))],
                      [], existing ++ [((⟨year, month, md.2⟩ : CalDate), true)],
                      ?_, by simp, by simp⟩
                    rw [bulk_process]
                    simp only []
                    rw [if_neg h1, if_neg h2, if_neg h3, h4]
                    simp only []
                    rw [h5]
                    simp only []
                    rw [if_neg h6, if_neg h7, if_neg h8]
                    rfl
  · decide

/-- Evaluation of the per-line continuation property of
`bulk_import_line_by_line` at a concrete bad line. -/
theorem bulk_import_line_by_line_witness :
    ∃ (created1 : List (CalDate × String)) (errors1 : List String)
        (existing1 : List (CalDate × Bool)),
      bulk_process 2025 [(1, "Feb 30\tFriday\tBad".data)] [] =
        (created1 ++ (bulk_process 2025 [] existing1).1,
         errors1 ++ (bulk_process 2025 [] existing1).2) ∧
      errors1.length ≤ 1 ∧
      ∀ e ∈ errors1, ∃ t, e = ("Line " ++ toString 1) ++ t :=
  bulk_import_line_by_line.1 2025 [] 1 "Feb 30\tFriday\tBad".data []

/-- The working-day loop counts exactly the working days among the
`fuel` consecutive dates starting at `s`. -/
theorem countWorkingDaysAux_eq (hs : List Nat) :
    ∀ (n s : Nat), countWorkingDaysAux hs s n =
      (List.range' s n).countP (fun d => decide (dateWeekday d ≠ 6 ∧ d ∉ hs)) := by
  intro n
  induction n with
  | zero => intro s; rfl
  | succ k ih =>
      intro s
      rw [countWorkingDaysAux,
        show List.range' s (k + 1) = s :: List.range' (s + 1) k from rfl,
        List.countP_cons, ih (s + 1)]
      by_cases h : dateWeekday s ≠ 6 ∧ s ∉ hs
      · simp only [h, if_pos, decide_eq_true_eq]
        simp [h]
        omega
      · simp [h]

/-- Count comparison for two predicates that differ exactly at one
value `d0`. -/
theorem countP_congr_except (l : List Nat) (pA pB : Nat → Bool) (d0 : Nat)
    (hA : pA d0 = true) (hB : pB d0 = false)
    (hother : ∀ d, d ≠ d0 → pA d = pB d) :
    l.countP pA = l.countP pB + l.count d0 := by
  induction l with
  | nil => rfl
  | cons a l ih =>
      simp only [List.countP_cons, List.count_cons, ih]
      by_cases h : a = d0
      · subst h
        simp [hA, hB]
        omega
      · rw [hother a h]
        simp [h]
        omega

/-- C10: `HolidayRepository.delete` is a soft delete: it returns true on
an existing id, keeps the row (same table size, the row survives with
`is_active` cleared), after which the date is no longer reported by the
active-only lookups (`get_by_date`, `get_holiday_dates_in_range`) and —
when the deleted holiday was active, in range and not a Sunday — the
stats engine counts one more working day over any range containing the
date. -/
theorem holiday_delete_soft (store : List Holiday) (holiday_id : Nat) (h0 : Holiday)
    (hids : (store.map (fun h => h.id)).Nodup)
    (hdates : (store.map (fun h => h.date)).Nodup)
    (hfind : store.find? (fun h => decide (h.id = holiday_id)) = some h0) :
    (HolidayRepository.delete store holiday_id).1 = true ∧
    (HolidayRepository.delete store holiday_id).2.length = store.length ∧
    { h0 with is_active := false } ∈ (HolidayRepository.delete store holiday_id).2 ∧
    get_by_date (HolidayRepository.delete store holiday_id).2 h0.date = none ∧
    (∀ s e, h0.date ∉
      get_holiday_dates_in_range (HolidayRepository.delete store holiday_id).2 s e) ∧
    (∀ s e, h0.is_active = true → dateWeekday h0.date ≠ 6 →
      s ≤ h0.date → h0.date ≤ e →
      countWorkingDays s e
          (get_holiday_dates_in_range (HolidayRepository.delete store holiday_id).2 s e) =
        countWorkingDays s e (get_holiday_dates_in_range store s e) + 1) := by
  have hid0 : h0.id = holiday_id := by
    have := List.find?_some hfind
    simpa using this
  have hmem0 : h0 ∈ store := List.mem_of_find?_eq_some hfind
  have hinj := List.inj_on_of_nodup_map hids
  have hdinj := List.inj_on_of_nodup_map hdates
  set f : Holiday → Holiday := fun h =>
    if decide (h.id = holiday_id) then { h with is_active := false } else h with hf
  have hdel1 : (HolidayRepository.delete store holiday_id).1 = true := by
    rw [HolidayRepository.delete, hfind]
  have hdel2 : (HolidayRepository.delete store holiday_id).2 = store.map f := by
    rw [HolidayRepository.delete, hfind]
  have hfh0 : f h0 = { h0 with is_active := false } := by simp [hf, hid0]
  have hfother : ∀ h ∈ store, h ≠ h0 → f h = h := by
    intro h hh hne
    have hneid : ¬ h.id = holiday_id := fun hid =>
      hne (hinj hh hmem0 (hid.trans hid0.symm))
    simp [hf, hneid]
  have hafter_mem : ∀ s e d,
      d ∈ get_holiday_dates_in_range (store.map f) s e ↔
        (d ∈ get_holiday_dates_in_range store s e ∧ d ≠ h0.date) := by
    intro s e d
    simp only [get_holiday_dates_in_range, get_holidays_in_range]
    constructor
    · intro hm
      rcases List.mem_map.mp hm with ⟨x, hx, hdx⟩
      rcases List.mem_filter.mp hx with ⟨hxm, hq⟩
      rcases List.mem_map.mp hxm with ⟨h, hh, rfl⟩
      by_cases hcase : h = h0
      · subst hcase
        rw [hfh0] at hq
        simp at hq
      · rw [hfother h hh hcase] at hq hdx
        refine ⟨List.mem_map.mpr ⟨h, List.mem_filter.mpr ⟨hh, hq⟩, hdx⟩, ?_⟩
        intro hd
        exact hcase (hdinj hh hmem0 (by rw [hdx, hd]))
    · rintro ⟨hm, hne⟩
      rcases List.mem_map.mp hm with ⟨h, hx, hdx⟩
      rcases List.mem_filter.mp hx with ⟨hh, hq⟩
      have hneh : h ≠ h0 := fun hcontra => hne (by rw [← hdx, hcontra])
      refine List.mem_map.mpr ⟨f h, List.mem_filter.mpr
        ⟨List.mem_map.mpr ⟨h, hh, rfl⟩, ?_⟩, ?_⟩
      · rw [hfother h hh hneh]; exact hq
      · rw [hfother h hh hneh]; exact hdx
  refine ⟨hdel1, by simp [hdel2], ?_, ?_, ?_, ?_⟩
  · rw [hdel2]
    exact List.mem_map.mpr ⟨h0, hmem0, hfh0⟩
  · rw [hdel2]
    simp only [get_by_date]
    apply List.find?_eq_none.mpr
    intro x hx
    rcases List.mem_map.mp hx with ⟨h, hh, rfl⟩
    by_cases hcase : h = h0
    · subst hcase
      rw [hfh0]
      simp
    · rw [hfother h hh hcase]
      simp only [Bool.and_eq_true, decide_eq_true_eq, not_and]
      intro hdate
      exact absurd (hdinj hh hmem0 hdate) hcase
  · intro s e hm
    rw [hdel2] at hm
    exact ((hafter_mem s e h0.date).mp hm).2 rfl
  · intro s e hact hwd hs he
    rw [hdel2]
    have hbefore : h0.date ∈ get_holiday_dates_in_range store s e := by
      simp only [get_holiday_dates_in_range, get_holidays_in_range]
      exact List.mem_map.mpr ⟨h0, List.mem_filter.mpr
        ⟨hmem0, by simp [hs, he, hact]⟩, rfl⟩
    rw [countWorkingDays, countWorkingDays, countWorkingDaysAux_eq,
      countWorkingDaysAux_eq,
      countP_congr_except (List.range' s (e + 1 - s))
        (fun d => decide (dateWeekday d ≠ 6 ∧
          d ∉ get_holiday_dates_in_range (store.map f) s e))
        (fun d => decide (dateWeekday d ≠ 6 ∧
          d ∉ get_holiday_dates_in_range store s e))
        h0.date
        (by
          rw [decide_eq_true_eq]
          exact ⟨hwd, fun hmm => ((hafter_mem s e h0.date).mp hmm).2 rfl⟩)
        (by simp [hbefore])
        (by
          intro d hd
          rw [decide_eq_decide]
          constructor
          · rintro ⟨hw, hna⟩
            exact ⟨hw, fun hmm => hna ((hafter_mem s e d).mpr ⟨hmm, hd⟩)⟩
          · rintro ⟨hw, hnb⟩
            exact ⟨hw, fun hmm => hnb ((hafter_mem s e d).mp hmm).1⟩),
      List.count_eq_one_of_mem (List.nodup_range' s (e + 1 - s))
        (List.mem_range'_1.mpr ⟨hs, by omega⟩)]

/-- Evaluation of `holiday_delete_soft` on a one-row holidays table. -/
theorem holiday_delete_soft_witness :
    (HolidayRepository.delete
      [{ id := 1, date := 10, name := "Pongal", description := none,
         holiday_type := "GENERAL", is_recurring := true, is_active := true,
         created_by := none }] 1).1 = true ∧
    get_by_date (HolidayRepository.delete
      [{ id := 1, date := 10, name := "Pongal", description := none,
         holiday_type := "GENERAL", is_recurring := true, is_active := true,
         created_by := none }] 1).2 10 = none := by
  have h := holiday_delete_soft
    [{ id := 1, date := 10, name := "Pongal", description := none,
       holiday_type := "GENERAL", is_recurring := true, is_active := true,
       created_by := none }] 1
    { id := 1, date := 10, name := "Pongal", description := none,
      holiday_type := "GENERAL", is_recurring := true, is_active := true,
      created_by := none }
    (by decide) (by decide) (by decide)
  exact ⟨h.1, h.2.2.2.1⟩

/-- C5 as stated is false: `update_geofence` applies the payload to the
targeted row only and never unsets `is_primary` elsewhere, so updating a
second active geofence to `primary=true` leaves two primary active
geofences. -/
theorem geofence_update_breaks_primary_invariant :
    primary_active_count
      [{ id := 1, name := "Main Campus", description := none, latitude := 11,
         longitude := 77, radius_meters := 500, accuracy_threshold := 50,
         is_active := true, is_primary := true, created_by := none },
       { id := 2, name := "Annex", description := none, latitude := 11,
         longitude := 77, radius_meters := 300, accuracy_threshold := 50,
         is_active := true, is_primary := false, created_by := none }] = 1 ∧
    (update_geofence
      [{ id := 1, name := "Main Campus", description := none, latitude := 11,
         longitude := 77, radius_meters := 500, accuracy_threshold := 50,
         is_active := true, is_primary := true, created_by := none },
       { id := 2, name := "Annex", description := none, latitude := 11,
         longitude := 77, radius_meters := 300, accuracy_threshold := 50,
         is_active := true, is_primary := false, created_by := none }]
      2 { is_primary := some true }).map primary_active_count =
      Except.ok 2 := by
  constructor
  · rfl
  · rfl

/-- After demoting the unique primary active geofence, no primary
active geofence is left. -/
theorem demoted_primary_count_zero (store : List CampusGeofence)
    (ex : CampusGeofence) (hids : (store.map (fun g => g.id)).Nodup)
    (hmemx : ex ∈ store) (hpex : (ex.is_active && ex.is_primary) = true)
    (hinv : store.countP (fun g => g.is_active && g.is_primary) ≤ 1) :
    (store.map (fun g =>
      if decide (g.id = ex.id) then { g with is_primary := false }
      else g)).countP (fun g => g.is_active && g.is_primary) = 0 := by
  have hq1 : store.countP (fun g => decide (g.id = ex.id)) = 1 :=
    countP_key_eq_one store (fun g => g.id) ex hids hmemx
  have hkey := countP_map_single_update store
    (fun g => g.is_active && g.is_primary)
    (fun g => decide (g.id = ex.id))
    (fun g => { g with is_primary := false }) ex hq1 hmemx (by simp)
  simp only [hpex, Bool.and_false, if_true, Bool.false_eq_true, if_false,
    Nat.add_zero] at hkey
  omega

/-- C5 amended: creating a geofence preserves the at-most-one
primary-active invariant (a primary creation first demotes the current
primary active geofence), but `update_geofence` only rewrites the
targeted row in place — every other geofence, including a currently
primary one, is kept unchanged — so an update that sets `primary=true`
does not restore the invariant. -/
theorem geofence_primary_invariant_create_only
    (store : List CampusGeofence) (data : GeofenceCreate) (admin_id new_id : Nat)
    (hids : (store.map (fun g => g.id)).Nodup)
    (hinv : primary_active_count store ≤ 1) :
    primary_active_count (create_geofence store data admin_id new_id) ≤ 1 ∧
    (∀ (geofence_id : Nat) (upd : GeofenceUpdate) (store' : List CampusGeofence),
      update_geofence store geofence_id upd = .ok store' →
      store'.length = store.length ∧
      ∀ g ∈ store, g.id ≠ geofence_id → g ∈ store') := by
  have hcnt : ∀ l : List CampusGeofence,
      primary_active_count l = l.countP (fun g => g.is_active && g.is_primary) := by
    intro l
    rw [primary_active_count, List.countP_eq_length_filter]
  have hone : ∀ (p : CampusGeofence → Bool) (x : CampusGeofence),
      List.countP p [x] ≤ 1 := by
    intro p x
    rw [List.countP_cons]
    simp only [List.countP_nil]
    by_cases h : p x = true <;> simp [h]
  constructor
  · rw [create_geofence]
    by_cases hp : data.is_primary = true
    · rw [if_pos hp]
      rcases hfind : get_primary_active_geofence store with _ | ex
      · simp only []
        rw [hcnt, List.countP_append]
        have h0 : store.countP (fun g => g.is_active && g.is_primary) = 0 := by
          simp only [get_primary_active_geofence] at hfind
          exact List.countP_eq_zero.mpr (List.find?_eq_none.mp hfind)
        rw [h0]
        simpa using hone (fun g => g.is_active && g.is_primary) _
      · simp only []
        rw [hcnt, List.countP_append]
        have hmemx : ex ∈ store := by
          simp only [get_primary_active_geofence] at hfind
          exact List.mem_of_find?_eq_some hfind
        have hpex : (ex.is_active && ex.is_primary) = true := by
          simp only [get_primary_active_geofence] at hfind
          have := List.find?_some hfind
          simpa using this
        rw [hcnt] at hinv
        rw [demoted_primary_count_zero store ex hids hmemx hpex hinv]
        simpa using hone (fun g => g.is_active && g.is_primary) _
    · rw [if_neg hp]
      have hp' : data.is_primary = false := by simpa using hp
      rw [hcnt, List.countP_append]
      rw [hcnt] at hinv
      simp only [List.countP_cons, List.countP_nil, hp', Bool.and_false,
        Bool.false_eq_true, if_false]
      omega
  · intro geofence_id upd store' hupd
    rw [update_geofence] at hupd
    rcases hfind : store.find? (fun g => decide (g.id = geofence_id)) with _ | g0
    · rw [hfind] at hupd
      cases hupd
    · rw [hfind] at hupd
      have hstore' : store.map (fun g =>
          if decide (g.id = geofence_id) then apply_geofence_update g upd
          else g) = store' := by
        injection hupd
      rw [← hstore']
      refine ⟨by simp, ?_⟩
      intro g hg hne
      refine List.mem_map.mpr ⟨g, hg, ?_⟩
      simp [hne]

/-- Evaluation of `geofence_primary_invariant_create_only` on a
one-geofence store. -/
theorem geofence_primary_invariant_create_only_witness :
    primary_active_count (create_geofence
      [{ id := 1, name := "Main Campus", description := none, latitude := 11,
         longitude := 77, radius_meters := 500, accuracy_threshold := 50,
         is_active := true, is_primary := true, created_by := none }]
      { name := "Annex", description := none, latitude := 11, longitude := 77,
        radius_meters := 300, accuracy_threshold := 50, is_primary := true }
      7 2) ≤ 1 :=
  (geofence_primary_invariant_create_only
    [{ id := 1, name := "Main Campus", description := none, latitude := 11,
       longitude := 77, radius_meters := 500, accuracy_threshold := 50,
       is_active := true, is_primary := true, created_by := none }]
    { name := "Annex", description := none, latitude := 11, longitude := 77,
      radius_meters := 300, accuracy_threshold := 50, is_primary := true }
    7 2 (by decide) (by decide)).1

/-- Demoting the APPROVED photo `ex` removes exactly its own
contribution from every per-student APPROVED count. -/
theorem demote_approved_count (store : List ProfilePhoto) (ex : ProfilePhoto)
    (hids : (store.map (fun p => p.id)).Nodup) (hmem : ex ∈ store) (s' : Nat) :
    (store.map (fun p =>
      if decide (p.id = ex.id) then
        { p with
            status := ProfilePhotoStatus.REJECTED
            rejection_reason := some "Replaced by new approved photo" }
      else p)).countP (fun p =>
        decide (p.student_id = s') &&
          decide (p.status = ProfilePhotoStatus.APPROVED)) +
      (if (decide (ex.student_id = s') &&
        decide (ex.status = ProfilePhotoStatus.APPROVED)) = true then 1 else 0) =
    store.countP (fun p =>
      decide (p.student_id = s') &&
        decide (p.status = ProfilePhotoStatus.APPROVED)) := by
  have hq1 : store.countP (fun p => decide (p.id = ex.id)) = 1 :=
    countP_key_eq_one store (fun p => p.id) ex hids hmem
  have hkey := countP_map_single_update store
    (fun p => decide (p.student_id = s') &&
      decide (p.status = ProfilePhotoStatus.APPROVED))
    (fun p => decide (p.id = ex.id))
    (fun p => { p with
        status := ProfilePhotoStatus.REJECTED
        rejection_reason := some "Replaced by new approved photo" }) ex hq1 hmem
    (by simp)
  simp only [] at hkey
  simp only [show decide (ProfilePhotoStatus.REJECTED = ProfilePhotoStatus.APPROVED)
      = false from rfl, Bool.and_false, Bool.false_eq_true, if_false,
    Nat.add_zero] at hkey
  exact hkey

/-- Approving the PENDING photo `photo` adds exactly one APPROVED photo
for its student (and none for anyone else). -/
theorem approve_pending_count (l : List ProfilePhoto) (photo : ProfilePhoto)
    (reviewer_id now : Nat) (hids : (l.map (fun p => p.id)).Nodup)
    (hmem : photo ∈ l) (hpend : photo.status = ProfilePhotoStatus.PENDING)
    (s' : Nat) :
    (l.map (fun p =>
      if decide (p.id = photo.id) then
        { p with
            status := ProfilePhotoStatus.APPROVED
            reviewed_by := some reviewer_id
            reviewed_at := some now }
      else p)).countP (fun p =>
        decide (p.student_id = s') &&
          decide (p.status = ProfilePhotoStatus.APPROVED)) =
    l.countP (fun p =>
      decide (p.student_id = s') &&
        decide (p.status = ProfilePhotoStatus.APPROVED)) +
      (if photo.student_id = s' then 1 else 0) := by
  have hq1 : l.countP (fun p => decide (p.id = photo.id)) = 1 :=
    countP_key_eq_one l (fun p => p.id) photo hids hmem
  have hkey := countP_map_single_update l
    (fun p => decide (p.student_id = s') &&
      decide (p.status = ProfilePhotoStatus.APPROVED))
    (fun p => decide (p.id = photo.id))
    (fun p => { p with
        status := ProfilePhotoStatus.APPROVED
        reviewed_by := some reviewer_id
        reviewed_at := some now }) photo hq1 hmem (by simp)
  simp only [] at hkey
  simp only [hpend] at hkey
  simp only [show decide (ProfilePhotoStatus.PENDING = ProfilePhotoStatus.APPROVED)
      = false from rfl, decide_True, Bool.and_false, Bool.and_true,
    Bool.false_eq_true, if_false, Nat.add_zero, decide_eq_true_eq] at hkey
  simp only [decide_eq_true_eq]
  omega

/-- Rejecting the PENDING photo `photo` leaves every per-student
APPROVED count unchanged. -/
theorem reject_pending_count (l : List ProfilePhoto) (photo : ProfilePhoto)
    (reason : Option String) (reviewer_id now : Nat)
    (hids : (l.map (fun p => p.id)).Nodup) (hmem : photo ∈ l)
    (hpend : photo.status = ProfilePhotoStatus.PENDING) (s' : Nat) :
    (l.map (fun p =>
      if decide (p.id = photo.id) then
        { p with
            status := ProfilePhotoStatus.REJECTED
            rejection_reason := some (reason.getD "Photo rejected by admin")
            reviewed_by := some reviewer_id
            reviewed_at := some now }
      else p)).countP (fun p =>
        decide (p.student_id = s') &&
          decide (p.status = ProfilePhotoStatus.APPROVED)) =
    l.countP (fun p =>
      decide (p.student_id = s') &&
        decide (p.status = ProfilePhotoStatus.APPROVED)) := by
  have hq1 : l.countP (fun p => decide (p.id = photo.id)) = 1 :=
    countP_key_eq_one l (fun p => p.id) photo hids hmem
  have hkey := countP_map_single_update l
    (fun p => decide (p.student_id = s') &&
      decide (p.status = ProfilePhotoStatus.APPROVED))
    (fun p => decide (p.id = photo.id))
    (fun p => { p with
        status := ProfilePhotoStatus.REJECTED
        rejection_reason := some (reason.getD "Photo rejected by admin")
        reviewed_by := some reviewer_id
        reviewed_at := some now }) photo hq1 hmem (by simp)
  simp only [] at hkey
  simp only [hpend] at hkey
  simp only [show decide (ProfilePhotoStatus.PENDING = ProfilePhotoStatus.APPROVED)
      = false from rfl, show decide (ProfilePhotoStatus.REJECTED =
      ProfilePhotoStatus.APPROVED) = false from rfl, Bool.and_false,
    Bool.false_eq_true, if_false, Nat.add_zero] at hkey
  exact hkey

/-- The ids of the photo table are untouched by a demotion. -/
theorem demote_preserves_ids (store : List ProfilePhoto) (ex : ProfilePhoto) :
    ((store.map (fun p =>
      if decide (p.id = ex.id) then
        { p with
            status := ProfilePhotoStatus.REJECTED
            rejection_reason := some "Replaced by new approved photo" }
      else p)).map (fun p => p.id)) = store.map (fun p => p.id) := by
  rw [List.map_map]
  apply List.map_congr_left
  intro p _
  by_cases h : p.id = ex.id <;> simp [h]

/-- C4: every student has at most one APPROVED profile photo at any
time: an upload always creates the photo PENDING and leaves all
APPROVED counts unchanged, and a review preserves the invariant because
approving first demotes any other APPROVED photo of the same student to
REJECTED with reason "Replaced by new approved photo" (the demoted row
is in the resulting table with exactly that status and reason). -/
theorem profile_photo_single_approved :
    (∀ (store : List ProfilePhoto) (student_id new_id : Nat)
        (file_path safe_filename : String) (validate_ok : Bool)
        (encoding : Option String) (store' : List ProfilePhoto)
        (ph : ProfilePhoto),
      upload_profile_photo store student_id new_id file_path safe_filename
          validate_ok encoding = .ok (store', ph) →
      ph.status = ProfilePhotoStatus.PENDING ∧
      ∀ s', approved_count store' s' = approved_count store s') ∧
    (∀ (store : List ProfilePhoto) (photo_id reviewer_id : Nat)
        (approval : ProfilePhotoApproval) (now : Nat)
        (store' : List ProfilePhoto),
      (store.map (fun p => p.id)).Nodup →
      (∀ s', approved_count store s' ≤ 1) →
      review_profile_photo store photo_id reviewer_id approval now = .ok store' →
      ∀ s', approved_count store' s' ≤ 1) ∧
    (∀ (store : List ProfilePhoto) (photo_id reviewer_id : Nat)
        (approval : ProfilePhotoApproval) (now : Nat)
        (store' : List ProfilePhoto) (photo ex : ProfilePhoto),
      review_profile_photo store photo_id reviewer_id approval now = .ok store' →
      approval.approved = true →
      store.find? (fun p => decide (p.id = photo_id)) = some photo →
      get_approved_photo_for_student store photo.student_id = some ex →
      ex.id ≠ photo.id →
      ∃ p' ∈ store', p'.id = ex.id ∧ p'.status = ProfilePhotoStatus.REJECTED ∧
        p'.rejection_reason = some "Replaced by new approved photo") := by
  have hb : ∀ (l : List ProfilePhoto) (t : Nat),
      approved_count l t = l.countP (fun p =>
        decide (p.student_id = t) &&
          decide (p.status = ProfilePhotoStatus.APPROVED)) := by
    intro l t
    rw [approved_count, List.countP_eq_length_filter]
  refine ⟨?_, ?_, ?_⟩
  · intro store student_id new_id file_path safe_filename validate_ok encoding
      store' ph hupd
    rw [upload_profile_photo.eq_def] at hupd
    by_cases hv : validate_ok = false
    · rw [if_pos hv] at hupd
      cases hupd
    · rw [if_neg hv] at hupd
      rcases encoding with _ | enc
      · cases hupd
      · simp only [Except.ok.injEq, Prod.mk.injEq] at hupd
        obtain ⟨h1, h2⟩ := hupd
        subst h1
        subst h2
        refine ⟨rfl, ?_⟩
        intro s'
        rw [hb, hb, List.countP_append]
        simp
  · intro store photo_id reviewer_id approval now store' hids hinv hupd s'
    rw [review_profile_photo] at hupd
    rcases hfindp : store.find? (fun p => decide (p.id = photo_id)) with _ | photo
    · rw [hfindp] at hupd
      cases hupd
    · rw [hfindp] at hupd
      simp only [] at hupd
      have hmemp : photo ∈ store := List.mem_of_find?_eq_some hfindp
      by_cases hpend : photo.status = ProfilePhotoStatus.PENDING
      · rw [if_neg (by simp [hpend])] at hupd
        by_cases happ : approval.approved = true
        · simp only [happ, if_true] at hupd
          rcases hfinda : get_approved_photo_for_student store photo.student_id
            with _ | ex
          · rw [get_approved_photo_for_student] at hfinda
            simp only [get_approved_photo_for_student, hfinda] at hupd
            cases hupd
            rw [hb, approve_pending_count store photo reviewer_id now hids
              hmemp hpend s']
            by_cases hs : photo.student_id = s'
            · subst hs
              have h0 : store.countP (fun p =>
                  decide (p.student_id = photo.student_id) &&
                    decide (p.status = ProfilePhotoStatus.APPROVED)) = 0 :=
                List.countP_eq_zero.mpr (List.find?_eq_none.mp hfinda)
              simp [h0]
            · have hsinv := hinv s'
              rw [hb] at hsinv
              simp [hs]
              omega
          · simp only [hfinda] at hupd
            have hexprop : (ex.student_id = photo.student_id ∧
                ex.status = ProfilePhotoStatus.APPROVED) := by
              rw [get_approved_photo_for_student] at hfinda
              have := List.find?_some hfinda
              simpa using this
            have hexmem : ex ∈ store := by
              rw [get_approved_photo_for_student] at hfinda
              exact List.mem_of_find?_eq_some hfinda
            by_cases hexid : ex.id = photo.id
            · exfalso
              have : ex = photo :=
                List.inj_on_of_nodup_map hids hexmem hmemp hexid
              rw [this, hpend] at hexprop
              exact absurd hexprop.2 (by simp)
            · rw [if_pos (by simpa using (Ne.intro hexid))] at hupd
              cases hupd
              rw [hb]
              have hids' := hids
              rw [← demote_preserves_ids store ex] at hids'
              have hmemp' : photo ∈ store.map (fun p =>
                  if decide (p.id = ex.id) then
                    { p with
                        status := ProfilePhotoStatus.REJECTED
                        rejection_reason := some "Replaced by new approved photo" }
                  else p) := by
                refine List.mem_map.mpr ⟨photo, hmemp, ?_⟩
                simp [show ¬ photo.id = ex.id from fun h => hexid h.symm]
              rw [approve_pending_count _ photo reviewer_id now hids' hmemp'
                hpend s']
              have hdem := demote_approved_count store ex hids hexmem s'
              have hsinv := hinv s'
              rw [hb] at hsinv
              by_cases hs : photo.student_id = s'
              · have hexif : (if (decide (ex.student_id = s') &&
                    decide (ex.status = ProfilePhotoStatus.APPROVED)) = true
                    then 1 else 0) = 1 := by
                  simp [hexprop.1, hs, hexprop.2]
                rw [hexif] at hdem
                rw [if_pos hs]
                omega
              · have hexif : (if (decide (ex.student_id = s') &&
                    decide (ex.status = ProfilePhotoStatus.APPROVED)) = true
                    then 1 else 0) = 0 := by
                  simp [hexprop.1, hs]
                rw [hexif] at hdem
                rw [if_neg hs]
                omega
        · have happ' : approval.approved = false := by simpa using happ
          simp only [happ', Bool.false_eq_true, if_false] at hupd
          cases hupd
          rw [hb, reject_pending_count store photo approval.rejection_reason
            reviewer_id now hids hmemp hpend s', ← hb]
          exact hinv s'
      · rw [if_pos (by simpa using hpend)] at hupd
        cases hupd
  · intro store photo_id reviewer_id approval now store' photo ex hupd happ
      hfindp hfinda hexid
    rw [review_profile_photo, hfindp] at hupd
    simp only [] at hupd
    have hmemp : photo ∈ store := List.mem_of_find?_eq_some hfindp
    have hexmem : ex ∈ store := by
      rw [get_approved_photo_for_student] at hfinda
      exact List.mem_of_find?_eq_some hfinda
    by_cases hpend : photo.status = ProfilePhotoStatus.PENDING
    · rw [if_neg (by simp [hpend])] at hupd
      simp only [happ, if_true, hfinda] at hupd
      rw [if_pos (by simpa using (Ne.intro hexid))] at hupd
      cases hupd
      refine ⟨{ ex with
          status := ProfilePhotoStatus.REJECTED
          rejection_reason := some "Replaced by new approved photo" }, ?_, by simp,
        by simp, by simp⟩
      refine List.mem_map.mpr ⟨{ ex with
          status := ProfilePhotoStatus.REJECTED
          rejection_reason := some "Replaced by new approved photo" },
        List.mem_map.mpr ⟨ex, hexmem, by simp⟩, ?_⟩
      simp [show ¬ ex.id = photo.id from hexid]
    · rw [if_pos (by simpa using hpend)] at hupd
      cases hupd

/-- Evaluation of `profile_photo_single_approved` on a one-photo table
being approved. -/
theorem profile_photo_single_approved_witness :
    approved_count
      [{ id := 1, student_id := 7, file_path := "p.jpg", filename := "p.jpg",
         face_encoding := some "[]", status := ProfilePhotoStatus.APPROVED,
         rejection_reason := none, reviewed_by := some 9,
         reviewed_at := some 100 }] 7 ≤ 1 :=
  profile_photo_single_approved.2.1
    [{ id := 1, student_id := 7, file_path := "p.jpg", filename := "p.jpg",
       face_encoding := some "[]", status := ProfilePhotoStatus.PENDING,
       rejection_reason := none, reviewed_by := none, reviewed_at := none }]
    1 9 { approved := true, rejection_reason := none } 100
    [{ id := 1, student_id := 7, file_path := "p.jpg", filename := "p.jpg",
       face_encoding := some "[]", status := ProfilePhotoStatus.APPROVED,
       rejection_reason := none, reviewed_by := some 9,
       reviewed_at := some 100 }]
    (by decide)
    (fun s' => by
      rw [approved_count]
      exact le_trans (List.length_filter_le _ _) (by simp))
    (by rfl) 7

/-- C6: `get_student_attendance_stats` computes `total_working_days` as
the number of dates in `[start, end]` that are neither Sundays nor
active-holiday dates, `absent_days = max 0 (working - present)`,
and `percentage = round2 (present / working * 100)` (0 when there are
no working days); in particular any 7-day range containing exactly one
Sunday, one active holiday on a non-Sunday, and four PRESENT records
yields working=5, present=4, absent=1, percentage=80.00. -/
theorem attendance_stats_correct :
    (∀ (student_id s e today : Nat) (records : List AttendanceRecord)
        (holidayStore : List Holiday),
      (get_student_attendance_stats student_id s e today records
          holidayStore).total_working_days =
        (List.range' s (e + 1 - s)).countP (fun d =>
          decide (dateWeekday d ≠ 6 ∧
            d ∉ get_holiday_dates_in_range holidayStore s e)) ∧
      (∀ d, d ∈ List.range' s (e + 1 - s) ↔ (s ≤ d ∧ d ≤ e)) ∧
      (get_student_attendance_stats student_id s e today records
          holidayStore).present_days =
        records.countP (fun r => decide (r.status = AttendanceStatus.PRESENT)) ∧
      (get_student_attendance_stats student_id s e today records
          holidayStore).absent_days =
        (max 0 (((get_student_attendance_stats student_id s e today records
          holidayStore).total_working_days : Int) -
          ((get_student_attendance_stats student_id s e today records
            holidayStore).present_days : Int))).toNat ∧
      (get_student_attendance_stats student_id s e today records
          holidayStore).attendance_percentage =
        (if (get_student_attendance_stats student_id s e today records
            holidayStore).total_working_days = 0 then 0
         else pyRound2
          (((get_student_attendance_stats student_id s e today records
              holidayStore).present_days : Rat) /
            ((get_student_attendance_stats student_id s e today records
              holidayStore).total_working_days : Rat) * 100))) ∧
    (∀ (student_id s today h0 : Nat) (records : List AttendanceRecord)
        (holidayStore : List Holiday),
      (List.range' s 7).countP (fun d => decide (dateWeekday d = 6)) = 1 →
      get_holiday_dates_in_range holidayStore s (s + 6) = [h0] →
      dateWeekday h0 ≠ 6 → s ≤ h0 → h0 ≤ s + 6 →
      records.length = 4 →
      (∀ r ∈ records, r.status = AttendanceStatus.PRESENT) →
      (get_student_attendance_stats student_id s (s + 6) today records
          holidayStore).total_working_days = 5 ∧
      (get_student_attendance_stats student_id s (s + 6) today records
          holidayStore).present_days = 4 ∧
      (get_student_attendance_stats student_id s (s + 6) today records
          holidayStore).absent_days = 1 ∧
      (get_student_attendance_stats student_id s (s + 6) today records
          holidayStore).attendance_percentage = 80) := by
  constructor
  · intro student_id s e today records holidayStore
    refine ⟨?_, ?_, rfl, ?_, ?_⟩
    · simp only [get_student_attendance_stats]
      rw [countWorkingDays, countWorkingDaysAux_eq]
    · intro d
      rw [List.mem_range'_1]
      omega
    · simp only [get_student_attendance_stats]
      omega
    · simp only [get_student_attendance_stats]
      by_cases hw : countWorkingDays s e
          (get_holiday_dates_in_range holidayStore s e) = 0
      · rw [hw]
        norm_num [pyRound2, roundHalfEven]
      · rw [if_neg hw, if_pos (by omega)]
  · intro student_id s today h0 records holidayStore hsun heq hwd hh0s hh0e
      hlen hstat
    have hW : countWorkingDays s (s + 6)
        (get_holiday_dates_in_range holidayStore s (s + 6)) = 5 := by
      rw [heq, countWorkingDays, countWorkingDaysAux_eq,
        show s + 6 + 1 - s = 7 from by omega]
      have hpart : ∀ l : List Nat,
          l.countP (fun d => decide (dateWeekday d ≠ 6 ∧ d ∉ ([h0] : List Nat))) +
            (l.countP (fun d => decide (dateWeekday d = 6)) +
              l.countP (fun d =>
                decide (dateWeekday d ≠ 6 ∧ d ∈ ([h0] : List Nat)))) =
          l.length := by
        intro l
        induction l with
        | nil => rfl
        | cons a t ih =>
            simp only [List.countP_cons, List.length_cons]
            by_cases h2 : a ∈ ([h0] : List Nat)
            · have h2' : a = h0 := by simpa using h2
              subst h2'
              rw [if_neg (by simp), if_neg (by simp [hwd]),
                if_pos (by simp [hwd])]
              omega
            · by_cases h1 : dateWeekday a = 6
              · rw [if_neg (by simp [h1]), if_pos (by simp [h1]),
                  if_neg (by simp [h1])]
                omega
              · have h2' : ¬ a = h0 := by simpa using h2
                rw [if_pos (by simp [h1, h2']), if_neg (by simp [h1]),
                  if_neg (by simp [h2'])]
                omega
      have hhol : (List.range' s 7).countP (fun d =>
          decide (dateWeekday d ≠ 6 ∧ d ∈ ([h0] : List Nat))) = 1 := by
        have hcnt : ∀ l : List Nat, l.countP (fun d =>
            decide (dateWeekday d ≠ 6 ∧ d ∈ ([h0] : List Nat))) = l.count h0 := by
          intro l
          induction l with
          | nil => rfl
          | cons a t ih =>
              simp only [List.countP_cons, List.count_cons, ih]
              by_cases h2 : a = h0
              · subst h2
                rw [if_pos (by simp [hwd])]
                simp
              · have h2' : ¬ (h0 = a) := fun h => h2 h.symm
                simp [h2, h2']
        rw [hcnt]
        exact List.count_eq_one_of_mem (List.nodup_range' s 7)
          (List.mem_range'_1.mpr ⟨hh0s, by omega⟩)
      have hlen7 : (List.range' s 7).length = 7 := by simp
      have := hpart (List.range' s 7)
      omega
    have hP : records.countP
        (fun r => decide (r.status = AttendanceStatus.PRESENT)) = 4 := by
      rw [List.countP_eq_length.mpr (fun r hr => by simp [hstat r hr])]
      exact hlen
    refine ⟨?_, ?_, ?_, ?_⟩
    · simp only [get_student_attendance_stats]
      exact hW
    · simp only [get_student_attendance_stats]
      exact hP
    · simp only [get_student_attendance_stats, hW, hP]
      decide
    · simp only [get_student_attendance_stats, hW, hP]
      norm_num [pyRound2, roundHalfEven]

/-- Evaluation of `attendance_stats_correct` on a concrete 7-day range:
days 0–6, Sunday on day 3, holiday on day 1, PRESENT records on days
0, 2, 4 and 5. -/
theorem attendance_stats_correct_witness :
    (get_student_attendance_stats 7 0 (0 + 6) 6
      [{ id := some 11, student_id := 7, attendance_date := 0,
         status := AttendanceStatus.PRESENT, location_latitude := none,
         location_longitude := none, location_accuracy := none,
         face_match_confidence := none, marked_at := none },
       { id := some 12, student_id := 7, attendance_date := 2,
         status := AttendanceStatus.PRESENT, location_latitude := none,
         location_longitude := none, location_accuracy := none,
         face_match_confidence := none, marked_at := none },
       { id := some 13, student_id := 7, attendance_date := 4,
         status := AttendanceStatus.PRESENT, location_latitude := none,
         location_longitude := none, location_accuracy := none,
         face_match_confidence := none, marked_at := none },
       { id := some 14, student_id := 7, attendance_date := 5,
         status := AttendanceStatus.PRESENT, location_latitude := none,
         location_longitude := none, location_accuracy := none,
         face_match_confidence := none, marked_at := none }]
      [{ id := 1, date := 1, name := "Festival", description := none,
         holiday_type := "GENERAL", is_recurring := false, is_active := true,
         created_by := none }]).total_working_days = 5 ∧
    (get_student_attendance_stats 7 0 (0 + 6) 6
      [{ id := some 11, student_id := 7, attendance_date := 0,
         status := AttendanceStatus.PRESENT, location_latitude := none,
         location_longitude := none, location_accuracy := none,
         face_match_confidence := none, marked_at := none },
       { id := some 12, student_id := 7, attendance_date := 2,
         status := AttendanceStatus.PRESENT, location_latitude := none,
         location_longitude := none, location_accuracy := none,
         face_match_confidence := none, marked_at := none },
       { id := some 13, student_id := 7, attendance_date := 4,
         status := AttendanceStatus.PRESENT, location_latitude := none,
         location_longitude := none, location_accuracy := none,
         face_match_confidence := none, marked_at := none },
       { id := some 14, student_id := 7, attendance_date := 5,
         status := AttendanceStatus.PRESENT, location_latitude := none,
         location_longitude := none, location_accuracy := none,
         face_match_confidence := none, marked_at := none }]
      [{ id := 1, date := 1, name := "Festival", description := none,
         holiday_type := "GENERAL", is_recurring := false, is_active := true,
         created_by := none }]).present_days = 4 :=
  let recs : List AttendanceRecord :=
    [{ id := some 11, student_id := 7, attendance_date := 0,
       status := AttendanceStatus.PRESENT, location_latitude := none,
       location_longitude := none, location_accuracy := none,
       face_match_confidence := none, marked_at := none },
     { id := some 12, student_id := 7, attendance_date := 2,
       status := AttendanceStatus.PRESENT, location_latitude := none,
       location_longitude := none, location_accuracy := none,
       face_match_confidence := none, marked_at := none },
     { id := some 13, student_id := 7, attendance_date := 4,
       status := AttendanceStatus.PRESENT, location_latitude := none,
       location_longitude := none, location_accuracy := none,
       face_match_confidence := none, marked_at := none },
     { id := some 14, student_id := 7, attendance_date := 5,
       status := AttendanceStatus.PRESENT, location_latitude := none,
       location_longitude := none, location_accuracy := none,
       face_match_confidence := none, marked_at := none }]
  let hols : List Holiday :=
    [{ id := 1, date := 1, name := "Festival", description := none,
       holiday_type := "GENERAL", is_recurring := false, is_active := true,
       created_by := none }]
  have h := attendance_stats_correct.2 7 0 6 1 recs hols
    (by decide) (by decide) (by decide) (by decide) (by decide) (by decide)
    (by decide)
  ⟨h.1, h.2.1⟩

/-- Under distinct keys, `find?` by a member's key returns that
member. -/
theorem find?_key_self {α : Type _} (l : List α) (k : α → Nat) (x : α)
    (hnd : (l.map k).Nodup) (hx : x ∈ l) :
    l.find? (fun y => decide (k y = k x)) = some x := by
  induction l with
  | nil => cases hx
  | cons a t ih =>
      by_cases ha : k a = k x
      · have hax : a = x :=
          List.inj_on_of_nodup_map hnd (List.mem_cons_self a t) hx ha
        subst hax
        have hdec : decide (k a = k a) = true := by simp
        rw [List.find?_cons, hdec]
      · have hxt : x ∈ t := by
          rcases List.mem_cons.mp hx with h | h
          · exact absurd (h ▸ rfl) ha
          · exact h
        have hnd' : (t.map k).Nodup := by
          simp only [List.map_cons] at hnd
          exact hnd.of_cons
        have hdec : decide (k a = k x) = false := by simp [ha]
        rw [List.find?_cons, hdec]
        exact ih hnd' hxt

/-- Date-indexed characterization of the history-synthesis loop: the
entries carrying date `d` are exactly the block the loop emits when it
visits `d`, and `d` is visited iff it lies in the window the loop
walks. -/
theorem synthHistoryAux_filter (student_id today : Nat)
    (records : List AttendanceRecord) (holiday_dates : List Nat) (d : Nat) :
    ∀ (fuel current : Nat), fuel ≤ current + 1 →
      (synthHistoryAux student_id today records holiday_dates current
        fuel).filter (fun en => decide (en.entryDate = d)) =
      (if current + 1 - fuel ≤ d ∧ d ≤ current ∧ dateWeekday d ≠ 6 ∧
          d ∉ holiday_dates then
        (match records.find? (fun r => decide (r.attendance_date = d)) with
         | some r => [HistEntry.real r]
         | none =>
             if d ≤ today then [HistEntry.virtual student_id d] else [])
      else []) := by
  intro fuel
  induction fuel with
  | zero =>
      intro current hfuel
      rw [synthHistoryAux, List.filter_nil, if_neg]
      rintro ⟨h1, h2, _⟩
      omega
  | succ fuel ih =>
      intro current hfuel
      rw [synthHistoryAux, List.filter_append, ih (current - 1) (by omega)]
      by_cases hd : d = current
      · have hih0 : (if current - 1 + 1 - fuel ≤ d ∧ d ≤ current - 1 ∧
            dateWeekday d ≠ 6 ∧ d ∉ holiday_dates then
            (match records.find? (fun r => decide (r.attendance_date = d)) with
             | some r => [HistEntry.real r]
             | none =>
                 if d ≤ today then [HistEntry.virtual student_id d] else [])
          else []) = [] := by
          rw [if_neg]
          rintro ⟨h1, h2, _⟩
          omega
        rw [hih0, List.append_nil, ← hd]
        by_cases hw : dateWeekday d ≠ 6 ∧ d ∉ holiday_dates
        · have hrhs : (if d + 1 - (fuel + 1) ≤ d ∧ d ≤ d ∧ dateWeekday d ≠ 6 ∧
              d ∉ holiday_dates then
              (match records.find? (fun r =>
                  decide (r.attendance_date = d)) with
               | some r => [HistEntry.real r]
               | none =>
                   if d ≤ today then [HistEntry.virtual student_id d] else [])
            else []) =
              (match records.find? (fun r =>
                  decide (r.attendance_date = d)) with
               | some r => [HistEntry.real r]
               | none =>
                   if d ≤ today then [HistEntry.virtual student_id d]
                   else []) :=
            if_pos ⟨by omega, by omega, hw.1, hw.2⟩
          rw [if_pos hw, hrhs]
          rcases hfind : records.find? (fun r => decide (r.attendance_date = d))
            with _ | r
          · simp only [hfind]
            by_cases ht : d ≤ today
            · rw [if_pos ht]
              simp [HistEntry.entryDate]
            · rw [if_neg ht, List.filter_nil]
          · have hr : r.attendance_date = d := by
              simpa using List.find?_some hfind
            simp only [hfind]
            simp [HistEntry.entryDate, hr]
        · have hrhs0 : (if d + 1 - (fuel + 1) ≤ d ∧ d ≤ d ∧ dateWeekday d ≠ 6 ∧
              d ∉ holiday_dates then
              (match records.find? (fun r =>
                  decide (r.attendance_date = d)) with
               | some r => [HistEntry.real r]
               | none =>
                   if d ≤ today then [HistEntry.virtual student_id d] else [])
            else []) = [] :=
            if_neg (by rintro ⟨_, _, w1, w2⟩; exact hw ⟨w1, w2⟩)
          rw [if_neg hw, List.filter_nil, hrhs0]
      · have hblock : (if dateWeekday current ≠ 6 ∧
            current ∉ holiday_dates then
            (match records.find? (fun r =>
                decide (r.attendance_date = current)) with
             | some r => [HistEntry.real r]
             | none =>
                 if current ≤ today then
                   [HistEntry.virtual student_id current]
                 else [])
          else []).filter (fun en => decide (en.entryDate = d)) = [] := by
          by_cases hw2 : dateWeekday current ≠ 6 ∧ current ∉ holiday_dates
          · rw [if_pos hw2]
            rcases hfind : records.find? (fun r =>
                decide (r.attendance_date = current)) with _ | r
            · simp only [hfind]
              by_cases ht : current ≤ today
              · rw [if_pos ht]
                simp [HistEntry.entryDate,
                  show ¬ current = d from fun h => hd h.symm]
              · rw [if_neg ht, List.filter_nil]
            · have hr : r.attendance_date = current := by
                simpa using List.find?_some hfind
              simp only [hfind]
              simp [HistEntry.entryDate, hr,
                show ¬ current = d from fun h => hd h.symm]
          · rw [if_neg hw2, List.filter_nil]
        have hcond : (current - 1 + 1 - fuel ≤ d ∧ d ≤ current - 1 ∧
            dateWeekday d ≠ 6 ∧ d ∉ holiday_dates) ↔
            (current + 1 - (fuel + 1) ≤ d ∧ d ≤ current ∧
            dateWeekday d ≠ 6 ∧ d ∉ holiday_dates) := by
          constructor
          · rintro ⟨h1, h2, h3, h4⟩
            exact ⟨by omega, by omega, h3, h4⟩
          · rintro ⟨h1, h2, h3, h4⟩
            exact ⟨by omega, by omega, h3, h4⟩
        rw [hblock, List.nil_append]
        exact if_congr hcond rfl rfl

/-- C7: the history list produced by stats synthesis contains exactly one
entry per working day of the range for days up to today; a real
`AttendanceRecord` is used whenever one exists and is never replaced by a
virtual entry; and no virtual ABSENT entry appears for a date after
today, for a Sunday, or for a holiday date. -/
theorem history_synthesis_correct (student_id start_date end_date today : Nat)
    (records : List AttendanceRecord) (holidayStore : List Holiday)
    (hse : start_date ≤ end_date) :
    (∀ d, start_date ≤ d → d ≤ end_date → dateWeekday d ≠ 6 →
      d ∉ get_holiday_dates_in_range holidayStore start_date end_date →
      d ≤ today →
      ((get_student_attendance_stats student_id start_date end_date today
          records holidayStore).records.filter
        (fun en => decide (en.entryDate = d))).length = 1) ∧
    (∀ d r, start_date ≤ d → d ≤ end_date → dateWeekday d ≠ 6 →
      d ∉ get_holiday_dates_in_range holidayStore start_date end_date →
      records.find? (fun x => decide (x.attendance_date = d)) = some r →
      (get_student_attendance_stats student_id start_date end_date today
          records holidayStore).records.filter
        (fun en => decide (en.entryDate = d)) = [HistEntry.real r]) ∧
    (∀ sid d, HistEntry.virtual sid d ∈
        (get_student_attendance_stats student_id start_date end_date today
          records holidayStore).records →
      d ≤ today ∧ dateWeekday d ≠ 6 ∧
      d ∉ get_holiday_dates_in_range holidayStore start_date end_date ∧
      start_date ≤ d ∧ d ≤ end_date ∧
      records.find? (fun x => decide (x.attendance_date = d)) = none) := by
  have hh : (get_student_attendance_stats student_id start_date end_date today
      records holidayStore).records =
      synthHistoryAux student_id today records
        (get_holiday_dates_in_range holidayStore start_date end_date)
        end_date (end_date + 1 - start_date) := rfl
  have hfilt : ∀ d,
      (synthHistoryAux student_id today records
        (get_holiday_dates_in_range holidayStore start_date end_date)
        end_date (end_date + 1 - start_date)).filter
        (fun en => decide (en.entryDate = d)) =
      (if start_date ≤ d ∧ d ≤ end_date ∧ dateWeekday d ≠ 6 ∧
          d ∉ get_holiday_dates_in_range holidayStore start_date end_date then
        (match records.find? (fun r => decide (r.attendance_date = d)) with
         | some r => [HistEntry.real r]
         | none =>
             if d ≤ today then [HistEntry.virtual student_id d] else [])
      else []) := by
    intro d
    rw [synthHistoryAux_filter student_id today records
      (get_holiday_dates_in_range holidayStore start_date end_date) d
      (end_date + 1 - start_date) end_date (by omega)]
    exact if_congr ⟨fun h => ⟨by omega, h.2.1, h.2.2.1, h.2.2.2⟩,
      fun h => ⟨by omega, h.2.1, h.2.2.1, h.2.2.2⟩⟩ rfl rfl
  refine ⟨?_, ?_, ?_⟩
  · intro d h1 h2 h3 h4 h5
    rw [hh, hfilt d, if_pos ⟨h1, h2, h3, h4⟩]
    rcases hfind : records.find? (fun r => decide (r.attendance_date = d))
      with _ | r
    · simp only [hfind]
      rw [if_pos h5]
      rfl
    · simp only [hfind]
      rfl
  · intro d r h1 h2 h3 h4 hfind
    rw [hh, hfilt d, if_pos ⟨h1, h2, h3, h4⟩]
    simp only [hfind]
  · intro sid d hmem
    rw [hh] at hmem
    have hf : HistEntry.virtual sid d ∈
        (synthHistoryAux student_id today records
          (get_holiday_dates_in_range holidayStore start_date end_date)
          end_date (end_date + 1 - start_date)).filter
          (fun en => decide (en.entryDate = d)) :=
      List.mem_filter.mpr ⟨hmem, by simp [HistEntry.entryDate]⟩
    rw [hfilt d] at hf
    by_cases hcond : start_date ≤ d ∧ d ≤ end_date ∧ dateWeekday d ≠ 6 ∧
        d ∉ get_holiday_dates_in_range holidayStore start_date end_date
    · rw [if_pos hcond] at hf
      rcases hfind : records.find? (fun r => decide (r.attendance_date = d))
        with _ | r
      · simp only [hfind] at hf
        by_cases ht : d ≤ today
        · exact ⟨ht, hcond.2.2.1, hcond.2.2.2, hcond.1, hcond.2.1, hfind⟩
        · rw [if_neg ht] at hf
          cases hf
      · simp only [hfind] at hf
        simp at hf
    · rw [if_neg hcond] at hf
      cases hf

/-- Evaluation of `history_synthesis_correct` on a 7-day range with one
PRESENT record on day 2, a holiday on day 1 and today = day 4. -/
theorem history_synthesis_correct_witness :
    ((get_student_attendance_stats 7 0 6 4
      [{ id := some 21, student_id := 7, attendance_date := 2,
         status := AttendanceStatus.PRESENT, location_latitude := none,
         location_longitude := none, location_accuracy := none,
         face_match_confidence := none, marked_at := none }]
      [{ id := 1, date := 1, name := "Festival", description := none,
         holiday_type := "GENERAL", is_recurring := false, is_active := true,
         created_by := none }]).records.filter
      (fun en => decide (en.entryDate = 4))).length = 1 ∧
    (get_student_attendance_stats 7 0 6 4
      [{ id := some 21, student_id := 7, attendance_date := 2,
         status := AttendanceStatus.PRESENT, location_latitude := none,
         location_longitude := none, location_accuracy := none,
         face_match_confidence := none, marked_at := none }]
      [{ id := 1, date := 1, name := "Festival", description := none,
         holiday_type := "GENERAL", is_recurring := false, is_active := true,
         created_by := none }]).records.filter
      (fun en => decide (en.entryDate = 2)) =
      [HistEntry.real
        { id := some 21, student_id := 7, attendance_date := 2,
          status := AttendanceStatus.PRESENT, location_latitude := none,
          location_longitude := none, location_accuracy := none,
          face_match_confidence := none, marked_at := none }] :=
  ⟨(history_synthesis_correct 7 0 6 4
      [{ id := some 21, student_id := 7, attendance_date := 2,
         status := AttendanceStatus.PRESENT, location_latitude := none,
         location_longitude := none, location_accuracy := none,
         face_match_confidence := none, marked_at := none }]
      [{ id := 1, date := 1, name := "Festival", description := none,
         holiday_type := "GENERAL", is_recurring := false, is_active := true,
         created_by := none }] (by decide)).1 4 (by decide) (by decide)
      (by decide) (by decide) (by decide),
   (history_synthesis_correct 7 0 6 4
      [{ id := some 21, student_id := 7, attendance_date := 2,
         status := AttendanceStatus.PRESENT, location_latitude := none,
         location_longitude := none, location_accuracy := none,
         face_match_confidence := none, marked_at := none }]
      [{ id := 1, date := 1, name := "Festival", description := none,
         holiday_type := "GENERAL", is_recurring := false, is_active := true,
         created_by := none }] (by decide)).2.1 2
      { id := some 21, student_id := 7, attendance_date := 2,
        status := AttendanceStatus.PRESENT, location_latitude := none,
        location_longitude := none, location_accuracy := none,
        face_match_confidence := none, marked_at := none }
      (by decide) (by decide) (by decide) (by decide) rfl⟩

/-- Every completed pipeline call writes exactly one attempt row,
whatever branch it takes. -/
theorem mark_attempts_single (fs : FaceService) (hav : HavFn)
    (student_id : Nat) (location : LocationData) (image_filename : String)
    (geofence? : Option CampusGeofence) (photo? : Option ProfilePhoto)
    (rec? : Option AttendanceRecord) (today now : Nat) :
    (mark_attendance fs hav student_id location image_filename geofence?
      photo? rec? today now).2.1.length = 1 := by
  rw [mark_attendance.eq_def]
  rcases geofence? with _ | g
  · rfl
  · simp only []
    rcases photo? with _ | p <;> rcases rec? with _ | er <;>
      repeat' first | rfl | split

/-- When the daily attempt limit is reached, the pre-check reports at
least one blocker. -/
theorem check_blockers_attempts (ctx : MarkCtx)
    (h : ctx.attempt_count ≥ MAX_DAILY_ATTEMPTS) :
    (check_attendance_prerequisites ctx).can_mark = false := by
  rw [check_attendance_prerequisites.eq_def]
  simp only []
  rw [if_pos h]
  simp only [decide_eq_false_iff_not]
  intro hlen
  rcases hg : ctx.geofence with _ | g <;> rw [hg] at hlen <;>
    simp [List.length_append] at hlen

/-- When attendance is already marked today, the pre-check reports at
least one blocker. -/
theorem check_blockers_marked (ctx : MarkCtx)
    (h : (match ctx.existing_record with
          | some r => decide (r.status = AttendanceStatus.PRESENT)
          | none => false) = true) :
    (check_attendance_prerequisites ctx).can_mark = false := by
  rw [check_attendance_prerequisites.eq_def]
  simp only []
  rw [if_pos h]
  simp only [decide_eq_false_iff_not]
  intro hlen
  by_cases ha : ctx.attempt_count ≥ MAX_DAILY_ATTEMPTS <;>
    [rw [if_pos ha] at hlen; rw [if_neg ha] at hlen] <;>
    rcases hg : ctx.geofence with _ | g <;> rw [hg] at hlen <;>
    simp [List.length_append] at hlen

/-- C1: the pipeline gates run in the fixed order — geofence configured
(OUTSIDE_CAMPUS), GPS accuracy (LOW_GPS_ACCURACY), geofence containment
(OUTSIDE_CAMPUS), face count (NO_FACE_DETECTED / MULTIPLE_FACES),
approved profile photo (PROFILE_NOT_APPROVED), face match
(FACE_MISMATCH, score recorded) — the first failing gate returns a
structured failure with no record written, and when all gates pass
today's record is upserted to PRESENT with marked_at = now, the
location snapshot and the face-match confidence. -/
theorem mark_pipeline_gates_correct (fs : FaceService) (hav : HavFn)
    (student_id : Nat) (location : LocationData) (image_filename : String)
    (photo? : Option ProfilePhoto) (rec? : Option AttendanceRecord)
    (today now : Nat) :
    ((mark_attendance fs hav student_id location image_filename none photo?
        rec? today now).1.success = false ∧
      (mark_attendance fs hav student_id location image_filename none photo?
        rec? today now).1.failure_reason = some FailureReason.OUTSIDE_CAMPUS ∧
      (mark_attendance fs hav student_id location image_filename none photo?
        rec? today now).2.2 = none) ∧
    (∀ g : CampusGeofence, location.accuracy > g.accuracy_threshold →
      (mark_attendance fs hav student_id location image_filename (some g)
        photo? rec? today now).1.success = false ∧
      (mark_attendance fs hav student_id location image_filename (some g)
        photo? rec? today now).1.failure_reason =
        some FailureReason.LOW_GPS_ACCURACY ∧
      (mark_attendance fs hav student_id location image_filename (some g)
        photo? rec? today now).2.2 = none) ∧
    (∀ g : CampusGeofence, ¬ location.accuracy > g.accuracy_threshold →
      (is_within_geofence hav location g).1 = false →
      (mark_attendance fs hav student_id location image_filename (some g)
        photo? rec? today now).1.success = false ∧
      (mark_attendance fs hav student_id location image_filename (some g)
        photo? rec? today now).1.failure_reason =
        some FailureReason.OUTSIDE_CAMPUS ∧
      (mark_attendance fs hav student_id location image_filename (some g)
        photo? rec? today now).2.2 = none) ∧
    (∀ g : CampusGeofence, ¬ location.accuracy > g.accuracy_threshold →
      (is_within_geofence hav location g).1 = true →
      fs.detect_faces (capture_path student_id now image_filename) = 0 →
      (mark_attendance fs hav student_id location image_filename (some g)
        photo? rec? today now).1.success = false ∧
      (mark_attendance fs hav student_id location image_filename (some g)
        photo? rec? today now).1.failure_reason =
        some FailureReason.NO_FACE_DETECTED ∧
      (mark_attendance fs hav student_id location image_filename (some g)
        photo? rec? today now).2.2 = none) ∧
    (∀ g : CampusGeofence, ¬ location.accuracy > g.accuracy_threshold →
      (is_within_geofence hav location g).1 = true →
      fs.detect_faces (capture_path student_id now image_filename) > 1 →
      (mark_attendance fs hav student_id location image_filename (some g)
        photo? rec? today now).1.success = false ∧
      (mark_attendance fs hav student_id location image_filename (some g)
        photo? rec? today now).1.failure_reason =
        some FailureReason.MULTIPLE_FACES ∧
      (mark_attendance fs hav student_id location image_filename (some g)
        photo? rec? today now).2.2 = none) ∧
    (∀ g : CampusGeofence, ¬ location.accuracy > g.accuracy_threshold →
      (is_within_geofence hav location g).1 = true →
      fs.detect_faces (capture_path student_id now image_filename) = 1 →
      (mark_attendance fs hav student_id location image_filename (some g)
        none rec? today now).1.success = false ∧
      (mark_attendance fs hav student_id location image_filename (some g)
        none rec? today now).1.failure_reason =
        some FailureReason.PROFILE_NOT_APPROVED ∧
      (mark_attendance fs hav student_id location image_filename (some g)
        none rec? today now).2.2 = none) ∧
    (∀ (g : CampusGeofence) (p : ProfilePhoto),
      ¬ location.accuracy > g.accuracy_threshold →
      (is_within_geofence hav location g).1 = true →
      fs.detect_faces (capture_path student_id now image_filename) = 1 →
      (fs.verify_face p.file_path
        (capture_path student_id now image_filename)).1 = false →
      (mark_attendance fs hav student_id location image_filename (some g)
        (some p) rec? today now).1.success = false ∧
      (mark_attendance fs hav student_id location image_filename (some g)
        (some p) rec? today now).1.failure_reason =
        some FailureReason.FACE_MISMATCH ∧
      (mark_attendance fs hav student_id location image_filename (some g)
        (some p) rec? today now).1.face_match_score =
        some (fs.verify_face p.file_path
          (capture_path student_id now image_filename)).2.1 ∧
      ((mark_attendance fs hav student_id location image_filename (some g)
        (some p) rec? today now).2.1.map (fun a => a.face_match_score)) =
        [some (fs.verify_face p.file_path
          (capture_path student_id now image_filename)).2.1] ∧
      (mark_attendance fs hav student_id location image_filename (some g)
        (some p) rec? today now).2.2 = none) ∧
    (∀ (g : CampusGeofence) (p : ProfilePhoto),
      ¬ location.accuracy > g.accuracy_threshold →
      (is_within_geofence hav location g).1 = true →
      fs.detect_faces (capture_path student_id now image_filename) = 1 →
      (fs.verify_face p.file_path
        (capture_path student_id now image_filename)).1 = true →
      (mark_attendance fs hav student_id location image_filename (some g)
        (some p) rec? today now).1.success = true ∧
      (mark_attendance fs hav student_id location image_filename (some g)
        (some p) rec? today now).1.attendance_status =
        some AttendanceStatus.PRESENT ∧
      ((mark_attendance fs hav student_id location image_filename (some g)
        (some p) rec? today now).2.2.map (fun r =>
          (r.status, r.marked_at, r.location_latitude, r.location_longitude,
            r.location_accuracy, r.face_match_confidence))) =
        some (AttendanceStatus.PRESENT, some now, some location.latitude,
          some location.longitude, some location.accuracy,
          some (fs.verify_face p.file_path
            (capture_path student_id now image_filename)).2.1)) := by
  refine ⟨⟨rfl, rfl, rfl⟩, ?_, ?_, ?_, ?_, ?_, ?_, ?_⟩
  · intro g h2
    rw [mark_attendance.eq_def]
    simp only []
    rw [if_pos h2]
    exact ⟨rfl, rfl, rfl⟩
  · intro g h2 h3
    rw [mark_attendance.eq_def]
    simp only []
    rw [if_neg h2, if_pos h3]
    exact ⟨rfl, rfl, rfl⟩
  · intro g h2 h3 h4
    rw [mark_attendance.eq_def]
    simp only []
    rw [if_neg h2, if_neg (by simp [h3]), if_pos h4]
    exact ⟨rfl, rfl, rfl⟩
  · intro g h2 h3 h4
    rw [mark_attendance.eq_def]
    simp only []
    rw [if_neg h2, if_neg (by simp [h3]), if_neg (by omega), if_pos h4]
    exact ⟨rfl, rfl, rfl⟩
  · intro g h2 h3 h4
    rw [mark_attendance.eq_def]
    simp only []
    rw [if_neg h2, if_neg (by simp [h3]), if_neg (by omega), if_neg (by omega)]
    exact ⟨rfl, rfl, rfl⟩
  · intro g p h2 h3 h4 h5
    rw [mark_attendance.eq_def]
    simp only []
    rw [if_neg h2, if_neg (by simp [h3]), if_neg (by omega), if_neg (by omega)]
    rw [if_pos h5]
    exact ⟨rfl, rfl, rfl, rfl, rfl⟩
  · intro g p h2 h3 h4 h5
    rw [mark_attendance.eq_def]
    simp only []
    rw [if_neg h2, if_neg (by simp [h3]), if_neg (by omega), if_neg (by omega)]
    rw [if_neg (by simp [h5])]
    rcases rec? with _ | er <;> exact ⟨rfl, rfl, rfl⟩

/-- Evaluation of `mark_pipeline_gates_correct`: each gate is driven to
its failure on concrete inputs, and a fully passing run upserts the
PRESENT record. -/
theorem mark_pipeline_gates_correct_witness :
    (mark_attendance ⟨fun _ => 1, fun _ _ => (true, 19/20, "ok")⟩
      (fun _ _ _ _ => (0 : Rat)) 7 ⟨10, 20, 50⟩ "img.jpg"
      (some { id := 1, name := "Main", description := none,
                latitude := 10, longitude := 20, radius_meters := 500,
                accuracy_threshold := 30, is_active := true,
                is_primary := true, created_by := none })
      (some { id := 3, student_id := 7,
                file_path := "photos/p.jpg", filename := "p.jpg",
                face_encoding := some "enc",
                status := ProfilePhotoStatus.APPROVED,
                rejection_reason := none, reviewed_by := some 1,
                reviewed_at := some 10 }) none 100 5000).1.failure_reason =
      some FailureReason.LOW_GPS_ACCURACY ∧
    (mark_attendance ⟨fun _ => 1, fun _ _ => (true, 19/20, "ok")⟩
      (fun _ _ _ _ => (1000 : Rat)) 7 ⟨10, 20, 25⟩ "img.jpg"
      (some { id := 1, name := "Main", description := none,
                latitude := 10, longitude := 20, radius_meters := 500,
                accuracy_threshold := 30, is_active := true,
                is_primary := true, created_by := none })
      (some { id := 3, student_id := 7,
                file_path := "photos/p.jpg", filename := "p.jpg",
                face_encoding := some "enc",
                status := ProfilePhotoStatus.APPROVED,
                rejection_reason := none, reviewed_by := some 1,
                reviewed_at := some 10 }) none 100 5000).1.failure_reason =
      some FailureReason.OUTSIDE_CAMPUS ∧
    (mark_attendance ⟨fun _ => 0, fun _ _ => (false, 0, "")⟩
      (fun _ _ _ _ => (0 : Rat)) 7 ⟨10, 20, 25⟩ "img.jpg"
      (some { id := 1, name := "Main", description := none,
                latitude := 10, longitude := 20, radius_meters := 500,
                accuracy_threshold := 30, is_active := true,
                is_primary := true, created_by := none })
      (some { id := 3, student_id := 7,
                file_path := "photos/p.jpg", filename := "p.jpg",
                face_encoding := some "enc",
                status := ProfilePhotoStatus.APPROVED,
                rejection_reason := none, reviewed_by := some 1,
                reviewed_at := some 10 }) none 100 5000).1.failure_reason =
      some FailureReason.NO_FACE_DETECTED ∧
    (mark_attendance ⟨fun _ => 2, fun _ _ => (false, 0, "")⟩
      (fun _ _ _ _ => (0 : Rat)) 7 ⟨10, 20, 25⟩ "img.jpg"
      (some { id := 1, name := "Main", description := none,
                latitude := 10, longitude := 20, radius_meters := 500,
                accuracy_threshold := 30, is_active := true,
                is_primary := true, created_by := none })
      (some { id := 3, student_id := 7,
                file_path := "photos/p.jpg", filename := "p.jpg",
                face_encoding := some "enc",
                status := ProfilePhotoStatus.APPROVED,
                rejection_reason := none, reviewed_by := some 1,
                reviewed_at := some 10 }) none 100 5000).1.failure_reason =
      some FailureReason.MULTIPLE_FACES ∧
    (mark_attendance ⟨fun _ => 1, fun _ _ => (true, 19/20, "ok")⟩
      (fun _ _ _ _ => (0 : Rat)) 7 ⟨10, 20, 25⟩ "img.jpg"
      (some { id := 1, name := "Main", description := none,
                latitude := 10, longitude := 20, radius_meters := 500,
                accuracy_threshold := 30, is_active := true,
                is_primary := true, created_by := none })
      none none 100 5000).1.failure_reason =
      some FailureReason.PROFILE_NOT_APPROVED ∧
    (mark_attendance ⟨fun _ => 1, fun _ _ => (false, 2/5, "no")⟩
      (fun _ _ _ _ => (0 : Rat)) 7 ⟨10, 20, 25⟩ "img.jpg"
      (some { id := 1, name := "Main", description := none,
                latitude := 10, longitude := 20, radius_meters := 500,
                accuracy_threshold := 30, is_active := true,
                is_primary := true, created_by := none })
      (some { id := 3, student_id := 7,
                file_path := "photos/p.jpg", filename := "p.jpg",
                face_encoding := some "enc",
                status := ProfilePhotoStatus.APPROVED,
                rejection_reason := none, reviewed_by := some 1,
                reviewed_at := some 10 }) none 100 5000).1.failure_reason =
      some FailureReason.FACE_MISMATCH ∧
    (mark_attendance ⟨fun _ => 1, fun _ _ => (false, 2/5, "no")⟩
      (fun _ _ _ _ => (0 : Rat)) 7 ⟨10, 20, 25⟩ "img.jpg"
      (some { id := 1, name := "Main", description := none,
                latitude := 10, longitude := 20, radius_meters := 500,
                accuracy_threshold := 30, is_active := true,
                is_primary := true, created_by := none })
      (some { id := 3, student_id := 7,
                file_path := "photos/p.jpg", filename := "p.jpg",
                face_encoding := some "enc",
                status := ProfilePhotoStatus.APPROVED,
                rejection_reason := none, reviewed_by := some 1,
                reviewed_at := some 10 }) none 100 5000).1.face_match_score = some (2/5) ∧
    (mark_attendance ⟨fun _ => 1, fun _ _ => (true, 19/20, "ok")⟩
      (fun _ _ _ _ => (0 : Rat)) 7 ⟨10, 20, 25⟩ "img.jpg"
      (some { id := 1, name := "Main", description := none,
                latitude := 10, longitude := 20, radius_meters := 500,
                accuracy_threshold := 30, is_active := true,
                is_primary := true, created_by := none })
      (some { id := 3, student_id := 7,
                file_path := "photos/p.jpg", filename := "p.jpg",
                face_encoding := some "enc",
                status := ProfilePhotoStatus.APPROVED,
                rejection_reason := none, reviewed_by := some 1,
                reviewed_at := some 10 }) none 100 5000).1.success = true ∧
    ((mark_attendance ⟨fun _ => 1, fun _ _ => (true, 19/20, "ok")⟩
      (fun _ _ _ _ => (0 : Rat)) 7 ⟨10, 20, 25⟩ "img.jpg"
      (some { id := 1, name := "Main", description := none,
                latitude := 10, longitude := 20, radius_meters := 500,
                accuracy_threshold := 30, is_active := true,
                is_primary := true, created_by := none })
      (some { id := 3, student_id := 7,
                file_path := "photos/p.jpg", filename := "p.jpg",
                face_encoding := some "enc",
                status := ProfilePhotoStatus.APPROVED,
                rejection_reason := none, reviewed_by := some 1,
                reviewed_at := some 10 }) none 100 5000).2.2.map (fun r =>
        (r.status, r.marked_at, r.location_latitude, r.location_longitude,
          r.location_accuracy, r.face_match_confidence))) =
      some (AttendanceStatus.PRESENT, some 5000, some 10, some 20, some 25,
        some (19/20)) :=
  ⟨((mark_pipeline_gates_correct ⟨fun _ => 1, fun _ _ => (true, 19/20, "ok")⟩
      (fun _ _ _ _ => (0 : Rat)) 7 ⟨10, 20, 50⟩ "img.jpg"
      (some { id := 3, student_id := 7,
                file_path := "photos/p.jpg", filename := "p.jpg",
                face_encoding := some "enc",
                status := ProfilePhotoStatus.APPROVED,
                rejection_reason := none, reviewed_by := some 1,
                reviewed_at := some 10 }) none 100 5000).2.1
      { id := 1, name := "Main", description := none,
                latitude := 10, longitude := 20, radius_meters := 500,
                accuracy_threshold := 30, is_active := true,
                is_primary := true, created_by := none } (by decide)).2.1,
   ((mark_pipeline_gates_correct ⟨fun _ => 1, fun _ _ => (true, 19/20, "ok")⟩
      (fun _ _ _ _ => (1000 : Rat)) 7 ⟨10, 20, 25⟩ "img.jpg"
      (some { id := 3, student_id := 7,
                file_path := "photos/p.jpg", filename := "p.jpg",
                face_encoding := some "enc",
                status := ProfilePhotoStatus.APPROVED,
                rejection_reason := none, reviewed_by := some 1,
                reviewed_at := some 10 }) none 100 5000).2.2.1
      { id := 1, name := "Main", description := none,
                latitude := 10, longitude := 20, radius_meters := 500,
                accuracy_threshold := 30, is_active := true,
                is_primary := true, created_by := none } (by decide) (by decide)).2.1,
   ((mark_pipeline_gates_correct ⟨fun _ => 0, fun _ _ => (false, 0, "")⟩
      (fun _ _ _ _ => (0 : Rat)) 7 ⟨10, 20, 25⟩ "img.jpg"
      (some { id := 3, student_id := 7,
                file_path := "photos/p.jpg", filename := "p.jpg",
                face_encoding := some "enc",
                status := ProfilePhotoStatus.APPROVED,
                rejection_reason := none, reviewed_by := some 1,
                reviewed_at := some 10 }) none 100 5000).2.2.2.1
      { id := 1, name := "Main", description := none,
                latitude := 10, longitude := 20, radius_meters := 500,
                accuracy_threshold := 30, is_active := true,
                is_primary := true, created_by := none } (by decide) (by decide) (by decide)).2.1,
   ((mark_pipeline_gates_correct ⟨fun _ => 2, fun _ _ => (false, 0, "")⟩
      (fun _ _ _ _ => (0 : Rat)) 7 ⟨10, 20, 25⟩ "img.jpg"
      (some { id := 3, student_id := 7,
                file_path := "photos/p.jpg", filename := "p.jpg",
                face_encoding := some "enc",
                status := ProfilePhotoStatus.APPROVED,
                rejection_reason := none, reviewed_by := some 1,
                reviewed_at := some 10 }) none 100 5000).2.2.2.2.1
      { id := 1, name := "Main", description := none,
                latitude := 10, longitude := 20, radius_meters := 500,
                accuracy_threshold := 30, is_active := true,
                is_primary := true, created_by := none } (by decide) (by decide) (by decide)).2.1,
   ((mark_pipeline_gates_correct ⟨fun _ => 1, fun _ _ => (true, 19/20, "ok")⟩
      (fun _ _ _ _ => (0 : Rat)) 7 ⟨10, 20, 25⟩ "img.jpg"
      none none 100 5000).2.2.2.2.2.1
      { id := 1, name := "Main", description := none,
                latitude := 10, longitude := 20, radius_meters := 500,
                accuracy_threshold := 30, is_active := true,
                is_primary := true, created_by := none } (by decide) (by decide) (by decide)).2.1,
   ((mark_pipeline_gates_correct ⟨fun _ => 1, fun _ _ => (false, 2/5, "no")⟩
      (fun _ _ _ _ => (0 : Rat)) 7 ⟨10, 20, 25⟩ "img.jpg"
      (some { id := 3, student_id := 7,
                file_path := "photos/p.jpg", filename := "p.jpg",
                face_encoding := some "enc",
                status := ProfilePhotoStatus.APPROVED,
                rejection_reason := none, reviewed_by := some 1,
                reviewed_at := some 10 }) none 100 5000).2.2.2.2.2.2.1
      { id := 1, name := "Main", description := none,
                latitude := 10, longitude := 20, radius_meters := 500,
                accuracy_threshold := 30, is_active := true,
                is_primary := true, created_by := none }
      { id := 3, student_id := 7,
                file_path := "photos/p.jpg", filename := "p.jpg",
                face_encoding := some "enc",
                status := ProfilePhotoStatus.APPROVED,
                rejection_reason := none, reviewed_by := some 1,
                reviewed_at := some 10 } (by decide) (by decide) (by decide)
      (by decide)).2.1,
   ((mark_pipeline_gates_correct ⟨fun _ => 1, fun _ _ => (false, 2/5, "no")⟩
      (fun _ _ _ _ => (0 : Rat)) 7 ⟨10, 20, 25⟩ "img.jpg"
      (some { id := 3, student_id := 7,
                file_path := "photos/p.jpg", filename := "p.jpg",
                face_encoding := some "enc",
                status := ProfilePhotoStatus.APPROVED,
                rejection_reason := none, reviewed_by := some 1,
                reviewed_at := some 10 }) none 100 5000).2.2.2.2.2.2.1
      { id := 1, name := "Main", description := none,
                latitude := 10, longitude := 20, radius_meters := 500,
                accuracy_threshold := 30, is_active := true,
                is_primary := true, created_by := none }
      { id := 3, student_id := 7,
                file_path := "photos/p.jpg", filename := "p.jpg",
                face_encoding := some "enc",
                status := ProfilePhotoStatus.APPROVED,
                rejection_reason := none, reviewed_by := some 1,
                reviewed_at := some 10 } (by decide) (by decide) (by decide)
      (by decide)).2.2.1,
   ((mark_pipeline_gates_correct ⟨fun _ => 1, fun _ _ => (true, 19/20, "ok")⟩
      (fun _ _ _ _ => (0 : Rat)) 7 ⟨10, 20, 25⟩ "img.jpg"
      (some { id := 3, student_id := 7,
                file_path := "photos/p.jpg", filename := "p.jpg",
                face_encoding := some "enc",
                status := ProfilePhotoStatus.APPROVED,
                rejection_reason := none, reviewed_by := some 1,
                reviewed_at := some 10 }) none 100 5000).2.2.2.2.2.2.2
      { id := 1, name := "Main", description := none,
                latitude := 10, longitude := 20, radius_meters := 500,
                accuracy_threshold := 30, is_active := true,
                is_primary := true, created_by := none }
      { id := 3, student_id := 7,
                file_path := "photos/p.jpg", filename := "p.jpg",
                face_encoding := some "enc",
                status := ProfilePhotoStatus.APPROVED,
                rejection_reason := none, reviewed_by := some 1,
                reviewed_at := some 10 } (by decide) (by decide) (by decide)
      (by decide)).1,
   ((mark_pipeline_gates_correct ⟨fun _ => 1, fun _ _ => (true, 19/20, "ok")⟩
      (fun _ _ _ _ => (0 : Rat)) 7 ⟨10, 20, 25⟩ "img.jpg"
      (some { id := 3, student_id := 7,
                file_path := "photos/p.jpg", filename := "p.jpg",
                face_encoding := some "enc",
                status := ProfilePhotoStatus.APPROVED,
                rejection_reason := none, reviewed_by := some 1,
                reviewed_at := some 10 }) none 100 5000).2.2.2.2.2.2.2
      { id := 1, name := "Main", description := none,
                latitude := 10, longitude := 20, radius_meters := 500,
                accuracy_threshold := 30, is_active := true,
                is_primary := true, created_by := none }
      { id := 3, student_id := 7,
                file_path := "photos/p.jpg", filename := "p.jpg",
                face_encoding := some "enc",
                status := ProfilePhotoStatus.APPROVED,
                rejection_reason := none, reviewed_by := some 1,
                reviewed_at := some 10 } (by decide) (by decide) (by decide)
      (by decide)).2.2⟩

/-- C2: every completed pipeline call writes exactly one attempt row,
success or failure; and once the attempt count for the day has reached
MAX_DAILY_ATTEMPTS the route blocks the call with HTTP 400 before the
pipeline runs, so no further attempt row is written. -/
theorem attempt_accounting_correct :
    (∀ (fs : FaceService) (hav : HavFn) (student_id : Nat)
        (location : LocationData) (image_filename : String)
        (geofence? : Option CampusGeofence) (photo? : Option ProfilePhoto)
        (rec? : Option AttendanceRecord) (today now : Nat),
      (mark_attendance fs hav student_id location image_filename geofence?
        photo? rec? today now).2.1.length = 1) ∧
    (∀ (fs : FaceService) (hav : HavFn) (student_id : Nat)
        (location : LocationData) (image_filename : String) (ctx : MarkCtx)
        (today now : Nat),
      ctx.attempt_count ≥ MAX_DAILY_ATTEMPTS →
      mark_attendance_route fs hav student_id location image_filename ctx
        today now =
        Except.error
          { status_code := 400,
             detail := "Cannot mark attendance: " ++
               String.intercalate ", "
                 (check_attendance_prerequisites ctx).blockers }) := by
  constructor
  · intro fs hav student_id location image_filename geofence? photo? rec?
      today now
    exact mark_attempts_single fs hav student_id location image_filename
      geofence? photo? rec? today now
  · intro fs hav student_id location image_filename ctx today now h
    rw [mark_attendance_route.eq_def]
    simp only []
    rw [if_pos (check_blockers_attempts ctx h)]

/-- Evaluation of `attempt_accounting_correct`: a passing pipeline run
writes one attempt row, and a context whose attempt count is already 5
is rejected with HTTP 400 naming the attempt limit. -/
theorem attempt_accounting_correct_witness :
    (mark_attendance ⟨fun _ => 1, fun _ _ => (true, 19/20, "ok")⟩
      (fun _ _ _ _ => (0 : Rat)) 7 ⟨10, 20, 25⟩ "img.jpg"
      (some { id := 1, name := "Main", description := none,
                latitude := 10, longitude := 20, radius_meters := 500,
                accuracy_threshold := 30, is_active := true,
                is_primary := true, created_by := none })
      (some { id := 3, student_id := 7,
                file_path := "photos/p.jpg", filename := "p.jpg",
                face_encoding := some "enc",
                status := ProfilePhotoStatus.APPROVED,
                rejection_reason := none, reviewed_by := some 1,
                reviewed_at := some 10 }) none 100 5000).2.1.length = 1 ∧
    mark_attendance_route ⟨fun _ => 1, fun _ _ => (true, 19/20, "ok")⟩
      (fun _ _ _ _ => (0 : Rat)) 7 ⟨10, 20, 25⟩ "img.jpg"
      { today_weekday := 2, holiday_today := none,
        approved_photo := some
          { id := 3, student_id := 7, file_path := "photos/p.jpg",
            filename := "p.jpg", face_encoding := some "enc",
            status := ProfilePhotoStatus.APPROVED, rejection_reason := none,
            reviewed_by := some 1, reviewed_at := some 10 },
        windows :=
          [{ id := 1, name := "Morning", start_time := 540, end_time := 570,
             days_of_week := [0, 1, 2, 3, 4, 5], student_category := none,
             is_active := true }],
        current_time := 555, student_category := none,
        existing_record := none, attempt_count := 5,
        geofence := some
          { id := 1, name := "Main", description := none, latitude := 10,
            longitude := 20, radius_meters := 500, accuracy_threshold := 30,
            is_active := true, is_primary := true,
            created_by := none } } 100 5000 =
      Except.error
        { status_code := 400,
           detail := "Cannot mark attendance: Maximum attempts (5) reached for today" } :=
  ⟨attempt_accounting_correct.1 ⟨fun _ => 1, fun _ _ => (true, 19/20, "ok")⟩
      (fun _ _ _ _ => (0 : Rat)) 7 ⟨10, 20, 25⟩ "img.jpg"
      (some { id := 1, name := "Main", description := none,
                latitude := 10, longitude := 20, radius_meters := 500,
                accuracy_threshold := 30, is_active := true,
                is_primary := true, created_by := none })
      (some { id := 3, student_id := 7,
                file_path := "photos/p.jpg", filename := "p.jpg",
                face_encoding := some "enc",
                status := ProfilePhotoStatus.APPROVED,
                rejection_reason := none, reviewed_by := some 1,
                reviewed_at := some 10 }) none 100 5000,
   attempt_accounting_correct.2 ⟨fun _ => 1, fun _ _ => (true, 19/20, "ok")⟩
      (fun _ _ _ _ => (0 : Rat)) 7 ⟨10, 20, 25⟩ "img.jpg"
      { today_weekday := 2, holiday_today := none,
        approved_photo := some
          { id := 3, student_id := 7, file_path := "photos/p.jpg",
            filename := "p.jpg", face_encoding := some "enc",
            status := ProfilePhotoStatus.APPROVED, rejection_reason := none,
            reviewed_by := some 1, reviewed_at := some 10 },
        windows :=
          [{ id := 1, name := "Morning", start_time := 540, end_time := 570,
             days_of_week := [0, 1, 2, 3, 4, 5], student_category := none,
             is_active := true }],
        current_time := 555, student_category := none,
        existing_record := none, attempt_count := 5,
        geofence := some
          { id := 1, name := "Main", description := none, latitude := 10,
            longitude := 20, radius_meters := 500, accuracy_threshold := 30,
            is_active := true, is_primary := true,
            created_by := none } } 100 5000 (by decide)⟩

/-- An already-marked student is rejected by the route with an HTTP 400
exception before the pipeline runs, so the ALREADY_MARKED outcome is not
a logged structured completion: the route returns an error and no
attempt row is written. -/
theorem already_marked_raises_http_400 :
    mark_attendance_route ⟨fun _ => 1, fun _ _ => (true, 19/20, "ok")⟩
      (fun _ _ _ _ => (0 : Rat)) 7 ⟨10, 20, 25⟩ "img.jpg"
      { today_weekday := 2, holiday_today := none,
        approved_photo := some
          { id := 3, student_id := 7, file_path := "photos/p.jpg",
            filename := "p.jpg", face_encoding := some "enc",
            status := ProfilePhotoStatus.APPROVED, rejection_reason := none,
            reviewed_by := some 1, reviewed_at := some 10 },
        windows :=
          [{ id := 1, name := "Morning", start_time := 540, end_time := 570,
             days_of_week := [0, 1, 2, 3, 4, 5], student_category := none,
             is_active := true }],
        current_time := 555, student_category := none,
        existing_record := some
          { id := some 9, student_id := 7, attendance_date := 100,
            status := AttendanceStatus.PRESENT, location_latitude := none,
            location_longitude := none, location_accuracy := none,
            face_match_confidence := none, marked_at := some 10 },
        attempt_count := 0,
        geofence := some
          { id := 1, name := "Main", description := none, latitude := 10,
            longitude := 20, radius_meters := 500, accuracy_threshold := 30,
            is_active := true, is_primary := true,
            created_by := none } } 100 5000 =
      Except.error
        { status_code := 400,
           detail := "Cannot mark attendance: Attendance already marked today" } :=
  rfl

/-- C3 (amended): the six pipeline verification outcomes are structured
completions — the pipeline never raises, always writes exactly one
attempt row and never produces ALREADY_MARKED — while an already-marked
day is pre-blocked by the route as an HTTP 400 exception with no
attempt row written. -/
theorem verification_outcomes_structured :
    (∀ (fs : FaceService) (hav : HavFn) (student_id : Nat)
        (location : LocationData) (image_filename : String)
        (geofence? : Option CampusGeofence) (photo? : Option ProfilePhoto)
        (rec? : Option AttendanceRecord) (today now : Nat),
      (mark_attendance fs hav student_id location image_filename geofence?
        photo? rec? today now).1.failure_reason ≠
        some FailureReason.ALREADY_MARKED) ∧
    (∀ (fs : FaceService) (hav : HavFn) (student_id : Nat)
        (location : LocationData) (image_filename : String)
        (geofence? : Option CampusGeofence) (photo? : Option ProfilePhoto)
        (rec? : Option AttendanceRecord) (today now : Nat),
      (mark_attendance fs hav student_id location image_filename geofence?
        photo? rec? today now).2.1.length = 1) ∧
    (∀ (fs : FaceService) (hav : HavFn) (student_id : Nat)
        (location : LocationData) (image_filename : String) (ctx : MarkCtx)
        (today now : Nat),
      (check_attendance_prerequisites ctx).already_marked_today = true →
      mark_attendance_route fs hav student_id location image_filename ctx
        today now =
        Except.error
          { status_code := 400,
             detail := "Cannot mark attendance: " ++
               String.intercalate ", "
                 (check_attendance_prerequisites ctx).blockers }) := by
  refine ⟨?_, ?_, ?_⟩
  · intro fs hav student_id location image_filename geofence? photo? rec?
      today now
    rw [mark_attendance.eq_def]
    rcases geofence? with _ | g
    · simp
    · simp only []
      rcases photo? with _ | p <;> rcases rec? with _ | er <;>
        repeat' first | split | simp
  · intro fs hav student_id location image_filename geofence? photo? rec?
      today now
    exact mark_attempts_single fs hav student_id location image_filename
      geofence? photo? rec? today now
  · intro fs hav student_id location image_filename ctx today now h
    rw [mark_attendance_route.eq_def]
    simp only []
    rw [if_pos (check_blockers_marked ctx h)]

/-- Evaluation of `verification_outcomes_structured`: a geofence failure
is a structured non-ALREADY_MARKED completion with one attempt row, and
an already-marked context is turned into the HTTP 400 error. -/
theorem verification_outcomes_structured_witness :
    (mark_attendance ⟨fun _ => 1, fun _ _ => (true, 19/20, "ok")⟩
      (fun _ _ _ _ => (0 : Rat)) 7 ⟨10, 20, 25⟩ "img.jpg" none none none 100 5000).1.failure_reason ≠
      some FailureReason.ALREADY_MARKED ∧
    (mark_attendance ⟨fun _ => 1, fun _ _ => (true, 19/20, "ok")⟩
      (fun _ _ _ _ => (0 : Rat)) 7 ⟨10, 20, 25⟩ "img.jpg" none none none 100 5000).2.1.length = 1 ∧
    ((check_attendance_prerequisites
      { today_weekday := 2, holiday_today := none,
        approved_photo := some
          { id := 3, student_id := 7, file_path := "photos/p.jpg",
            filename := "p.jpg", face_encoding := some "enc",
            status := ProfilePhotoStatus.APPROVED, rejection_reason := none,
            reviewed_by := some 1, reviewed_at := some 10 },
        windows :=
          [{ id := 1, name := "Morning", start_time := 540, end_time := 570,
             days_of_week := [0, 1, 2, 3, 4, 5], student_category := none,
             is_active := true }],
        current_time := 555, student_category := none,
        existing_record := some
          { id := some 9, student_id := 7, attendance_date := 100,
            status := AttendanceStatus.PRESENT, location_latitude := none,
            location_longitude := none, location_accuracy := none,
            face_match_confidence := none, marked_at := some 10 },
        attempt_count := 0,
        geofence := some
          { id := 1, name := "Main", description := none, latitude := 10,
            longitude := 20, radius_meters := 500, accuracy_threshold := 30,
            is_active := true, is_primary := true,
            created_by := none } }).already_marked_today = true ∧
    mark_attendance_route ⟨fun _ => 1, fun _ _ => (true, 19/20, "ok")⟩
      (fun _ _ _ _ => (0 : Rat)) 7 ⟨11, 21, 24⟩ "img2.jpg"
      { today_weekday := 2, holiday_today := none,
        approved_photo := some
          { id := 3, student_id := 7, file_path := "photos/p.jpg",
            filename := "p.jpg", face_encoding := some "enc",
            status := ProfilePhotoStatus.APPROVED, rejection_reason := none,
            reviewed_by := some 1, reviewed_at := some 10 },
        windows :=
          [{ id := 1, name := "Morning", start_time := 540, end_time := 570,
             days_of_week := [0, 1, 2, 3, 4, 5], student_category := none,
             is_active := true }],
        current_time := 555, student_category := none,
        existing_record := some
          { id := some 9, student_id := 7, attendance_date := 100,
            status := AttendanceStatus.PRESENT, location_latitude := none,
            location_longitude := none, location_accuracy := none,
            face_match_confidence := none, marked_at := some 10 },
        attempt_count := 0,
        geofence := some
          { id := 1, name := "Main", description := none, latitude := 10,
            longitude := 20, radius_meters := 500, accuracy_threshold := 30,
            is_active := true, is_primary := true,
            created_by := none } } 100 5001 =
      Except.error
        { status_code := 400,
           detail := "Cannot mark attendance: Attendance already marked today" }) :=
  ⟨verification_outcomes_structured.1 ⟨fun _ => 1, fun _ _ => (true, 19/20, "ok")⟩
      (fun _ _ _ _ => (0 : Rat)) 7 ⟨10, 20, 25⟩ "img.jpg" none none none 100 5000,
   verification_outcomes_structured.2.1 ⟨fun _ => 1, fun _ _ => (true, 19/20, "ok")⟩
      (fun _ _ _ _ => (0 : Rat)) 7 ⟨10, 20, 25⟩ "img.jpg" none none none 100 5000,
   by decide,
   verification_outcomes_structured.2.2 ⟨fun _ => 1, fun _ _ => (true, 19/20, "ok")⟩
      (fun _ _ _ _ => (0 : Rat)) 7 ⟨11, 21, 24⟩ "img2.jpg"
      { today_weekday := 2, holiday_today := none,
        approved_photo := some
          { id := 3, student_id := 7, file_path := "photos/p.jpg",
            filename := "p.jpg", face_encoding := some "enc",
            status := ProfilePhotoStatus.APPROVED, rejection_reason := none,
            reviewed_by := some 1, reviewed_at := some 10 },
        windows :=
          [{ id := 1, name := "Morning", start_time := 540, end_time := 570,
             days_of_week := [0, 1, 2, 3, 4, 5], student_category := none,
             is_active := true }],
        current_time := 555, student_category := none,
        existing_record := some
          { id := some 9, student_id := 7, attendance_date := 100,
            status := AttendanceStatus.PRESENT, location_latitude := none,
            location_longitude := none, location_accuracy := none,
            face_match_confidence := none, marked_at := some 10 },
        attempt_count := 0,
        geofence := some
          { id := 1, name := "Main", description := none, latitude := 10,
            longitude := 20, radius_meters := 500, accuracy_threshold := 30,
            is_active := true, is_primary := true,
            created_by := none } } 100 5001 (by decide)⟩
